import Mathlib

/-!
Shallow embedding of the rendering core of a Wolfenstein-3D-style raycasting
engine (`src/engine.rs` of wolf3d-reimpl-rs), together with proofs about the
claims of its specification.

Modelling conventions:
* Rust `f64` values are modelled as exact rationals (`ℚ`).  The claims under
  study are order- and sign-based, so exact-real arithmetic is the intended
  idealization; where a division by zero would occur in `f64`, the theorems
  carry an explicit nonzero hypothesis instead of relying on Lean's `x / 0 = 0`
  convention.
* Rust `i32` values are modelled as `ℤ`; the float-to-int cast `as i32`
  (truncation toward zero, saturating) and the int cast `i32 as u32`
  (two's-complement reinterpretation) are modelled explicitly.
* `Vec<T>` is modelled as `List T`.  Indexed writes use `List.set`, indexed
  reads carry explicit length hypotheses mirroring the bounds that Rust
  enforces at run time.
* Code of the repository that is outside `src/` (the map, tile, DDA-cursor and
  multimedia modules: only `engine.rs` is available) is modelled from the
  spec; every such definition carries a doc comment starting with
  `Modelled from the spec:`.
-/

namespace WolfEngine

/-- Truncation of a rational toward zero: the rounding used by Rust's
float-to-integer `as` casts. -/
def ratTrunc (q : ℚ) : ℤ := if 0 ≤ q then ⌊q⌋ else -⌊-q⌋

/-- Smallest `i32` value. -/
def i32Min : ℤ := -2147483648

/-- Largest `i32` value. -/
def i32Max : ℤ := 2147483647

/-- Rust `f64 as i32`: truncation toward zero, saturating at the `i32`
bounds. -/
def f64AsI32 (q : ℚ) : ℤ := max i32Min (min i32Max (ratTrunc q))

/-- Rust `i32 as u32`: two's-complement reinterpretation (the argument is
assumed to lie in the `i32` range, as every value cast in the engine does). -/
def i32AsU32 (v : ℤ) : ℤ := if v < 0 then v + 4294967296 else v

/-- Largest dimension accepted by `sdl2::rect::Rect`:
`i32::max_value() as u32 / 2`. -/
def rectMaxIntValue : ℤ := 1073741823

/-- Smallest position accepted by `sdl2::rect::Rect`: `i32::min_value() / 2`. -/
def rectMinIntValue : ℤ := -1073741824

/-- Position clamping performed by `sdl2::rect::Rect::new`. -/
def clampPosition (v : ℤ) : ℤ :=
  if v > rectMaxIntValue then rectMaxIntValue
  else if v < rectMinIntValue then rectMinIntValue
  else v

/-- Size clamping performed by `sdl2::rect::Rect::new`: a width or height of 0
becomes 1, and sizes are capped at `rectMaxIntValue`. -/
def clampSize (v : ℤ) : ℤ :=
  if v = 0 then 1 else if v > rectMaxIntValue then rectMaxIntValue else v

/-- The `sdl2::rect::Rect` type used by the engine for all blits: positions
and sizes as stored after the clamping `Rect::new` performs. -/
structure Rect where
  x : ℤ
  y : ℤ
  w : ℤ
  h : ℤ
deriving DecidableEq, Repr

/-- `sdl2::rect::Rect::new(x, y, width, height)`: width and height arrive as
`u32` values (here nonnegative integers) and are clamped to `[1, 2^30 - 1]`;
positions are clamped to `[-2^30, 2^30 - 1]`. -/
def Rect.new (x y w h : ℤ) : Rect :=
  ⟨clampPosition x, clampPosition y, clampSize w, clampSize h⟩

/-- 2D vector over the reals (`Vec2`/`Point2` of `utils/vec2d.rs`). -/
abbrev Vec2 := ℚ × ℚ

/-- Dot product of two 2D vectors (`Dot` of `utils/vec2d.rs`). -/
def Dot (a b : Vec2) : ℚ := a.1 * b.1 + a.2 * b.2

/-- Modelled from the spec: the shared fixed square texture dimension
`TEXTURE_PITCH` of `utils/conventions.rs` (not under `src/`). -/
def TEXTURE_PITCH : ℤ := 64

/-- Texture class of a texture handle (`TextureType` of `multimedia.rs`; only
the `WALL` variant is referenced by `engine.rs`). -/
inductive TextureType where
  | WALL
  | SPRITE
  | WEAPON
deriving DecidableEq, Repr

/-- Handle naming a texture in the asset store (`TextureHandle` of
`tiles.rs`). -/
structure TextureHandle where
  ttype : TextureType
  id : ℤ
deriving DecidableEq, Repr

/-- `TextureHandle::New`. -/
def TextureHandle.New (t : TextureType) (id : ℤ) : TextureHandle := ⟨t, id⟩

/-- A world-space billboard sprite: location and texture handle (`Sprite` of
`tiles.rs`, as described by the spec's data model). -/
structure Sprite where
  location : Vec2
  textureHandle : TextureHandle
deriving DecidableEq, Repr

/-- One column's wall hit: hit distance, texture handle and texture source
rectangle (`WallSlice` of `tiles.rs`, as described by the spec's data
model). -/
structure WallSlice where
  dist : ℚ
  textureHandle : TextureHandle
  textureRect : Rect
deriving DecidableEq, Repr

/-- Modelled from the spec: the DDA cursor state of `utils/dda.rs` (not under
`src/`), restricted to the parts `engine.rs` observes — the current grid
cell, the Euclidean hit distance from the ray origin, and the fractional
offset along the crossed grid line. -/
structure RayCursor where
  hitTile : ℤ × ℤ
  dist : ℚ
  hitFraction : ℚ
deriving DecidableEq, Repr

/-- Modelled from the spec: `LightTexture` of `multimedia.rs` (not under
`src/`) — a lighting-dependent choice between a lit and an unlit texture
handle, resolved by a lighting predicate evaluated against the cursor's
current hit state.  The predicate itself is kept abstract as a parameter. -/
def LightTexture (lightPred : RayCursor → Bool) (rayCursor : RayCursor)
    (lit unlit : TextureHandle) : TextureHandle :=
  if lightPred rayCursor then lit else unlit

/-- A wall tile (`tiles.rs`, not under `src/`): carries its texture handle. -/
structure WallTile where
  textureHandle : TextureHandle
deriving DecidableEq, Repr

/-- Modelled from the spec: `Wall::GetWallSlice` of `tiles.rs` (not under
`src/`) — a wall slice with the cursor's hit distance, the wall's own texture
handle, and the vertical texture strip selected by the fractional hit
position. -/
def WallTile.GetWallSlice (w : WallTile) (rayCursor : RayCursor) : WallSlice :=
  { dist := rayCursor.dist
    textureHandle := w.textureHandle
    textureRect :=
      Rect.new (ratTrunc (rayCursor.hitFraction * (TEXTURE_PITCH : ℚ))) 0 1
        TEXTURE_PITCH }

/-- A door tile (`tiles.rs`, not under `src/`): texture handle and how far the
door slab currently stands open. -/
structure DoorTile where
  textureHandle : TextureHandle
  openness : ℚ
deriving DecidableEq, Repr

/-- Modelled from the spec: `Door::GetWallSlice` of `tiles.rs` (not under
`src/`) — `none` when the ray currently passes through the door's open gap,
otherwise a slice accounting for the partly-open offset; the gap test is
modelled as a comparison of the cursor's hit fraction with the openness. -/
def DoorTile.GetWallSlice (d : DoorTile) (rayCursor : RayCursor) :
    Option WallSlice :=
  if rayCursor.hitFraction < d.openness then none
  else
    some
      { dist := rayCursor.dist
        textureHandle := d.textureHandle
        textureRect :=
          Rect.new
            (ratTrunc ((rayCursor.hitFraction - d.openness) * (TEXTURE_PITCH : ℚ)))
            0 1 TEXTURE_PITCH }

/-- An object tile (`tiles.rs`, not under `src/`): a static sprite, the
transient enemy sprites currently attached, and whether it presently hosts
enemies (`IsEnemyHolder`). -/
structure ObjectTile where
  objectSprite : Sprite
  enemySprites : List Sprite
  enemyHolder : Bool
deriving DecidableEq, Repr

/-- `ObjectTile::IsEnemyHolder`. -/
def ObjectTile.IsEnemyHolder (t : ObjectTile) : Bool := t.enemyHolder

/-- Modelled from the spec: `ObjectTile::GetSprites` (not under `src/`) —
the transient enemy sprite list, `none` when there are none. -/
def ObjectTile.GetSprites (t : ObjectTile) : Option (List Sprite) :=
  if t.enemySprites.isEmpty then none else some t.enemySprites

/-- An empty (walkable) tile (`tiles.rs`, not under `src/`): the transient
enemy sprites currently attached. -/
structure EmptyTile where
  enemySprites : List Sprite
deriving DecidableEq, Repr

/-- Modelled from the spec: `EmptyTile::GetSprites` (not under `src/`) — the
transient enemy sprite list, `none` when there are none. -/
def EmptyTile.GetSprites (t : EmptyTile) : Option (List Sprite) :=
  if t.enemySprites.isEmpty then none else some t.enemySprites

/-- The closed tile variant set of the map grid (`Tile` of `tiles.rs`). -/
inductive Tile where
  | WALL (w : WallTile)
  | DOOR (d : DoorTile)
  | OBJECT (o : ObjectTile)
  | EMPTY (e : EmptyTile)
  | NONE
deriving DecidableEq, Repr

/-- Modelled from the spec: the `Map` query surface of `map.rs` (not under
`src/`) — width and height in cells and a tile lookup.  The lookup function
is total here, but the engine model only ever evaluates it on in-bounds
cells: where `engine.rs` would call `GetTile` out of bounds, the model
returns a distinguished out-of-bounds outcome instead (see
`RenderColumnLoop`). -/
structure Map where
  width : ℤ
  height : ℤ
  tiles : ℤ × ℤ → Tile

/-- Modelled from the spec: `Map::WithinMap` — the bounds check. -/
def Map.WithinMap (m : Map) (c : ℤ × ℤ) : Bool :=
  decide (0 ≤ c.1) && decide (c.1 < m.width) && decide (0 ≤ c.2) &&
    decide (c.2 < m.height)

/-- Modelled from the spec: `Map::GetTile` (and `GetMutTile`, which reads the
same cell). -/
def Map.GetTile (m : Map) (c : ℤ × ℤ) : Tile := m.tiles c

/-- Read entry `(x, y)` of the tile-hit grid (`spriteTileHitMap[x][y]` on a
`Vec<Vec<bool>>`): `none` models the index-out-of-bounds abort Rust would
raise, including the wrap of a negative coordinate cast `as usize`. -/
def hitMapGet (hm : List (List Bool)) (x y : ℤ) : Option Bool :=
  if 0 ≤ x ∧ 0 ≤ y then (hm.getD x.toNat [])[y.toNat]? else none

/-- Write entry `(x, y)` of the tile-hit grid (only reached after a
successful read at the same index). -/
def hitMapSet (hm : List (List Bool)) (x y : ℤ) (b : Bool) :
    List (List Bool) :=
  hm.set x.toNat ((hm.getD x.toNat []).set y.toNat b)

/-- The two frame-scoped buffers the traversal writes: the sprite buffer and
the tile-hit map (`spritesBuffer` and `spriteTileHitMap` of `GameEngine`). -/
structure SpriteState where
  spritesBuffer : List Sprite
  spriteTileHitMap : List (List Bool)
deriving DecidableEq, Repr

/-- `GameEngine::GrabSprites` (engine.rs lines 261-289): if the tile-hit map
entry for the cell is still false, append the cell's sprites to the sprite
buffer — for an object tile its static sprite plus (when it hosts enemies)
its enemy sprites, for an empty tile its enemy sprites — and mark the entry
true; if the entry is already true, do nothing.  `none` models the aborts of
the Rust code: an out-of-bounds tile-hit-map index, or the `_ => abort` arm
for a non-sprite-bearing tile. -/
def GrabSprites (m : Map) (st : SpriteState) (tileCoord : ℤ × ℤ) :
    Option SpriteState :=
  match hitMapGet st.spriteTileHitMap tileCoord.1 tileCoord.2 with
  | none => none
  | some true => some st
  | some false =>
    match m.GetTile tileCoord with
    | Tile.OBJECT objectTile =>
      let withObject := st.spritesBuffer ++ [objectTile.objectSprite]
      let withEnemies :=
        if objectTile.IsEnemyHolder then
          match objectTile.GetSprites with
          | some arr => withObject ++ arr
          | none => withObject
        else withObject
      some
        { spritesBuffer := withEnemies
          spriteTileHitMap :=
            hitMapSet st.spriteTileHitMap tileCoord.1 tileCoord.2 true }
    | Tile.EMPTY emptyTile =>
      let withEnemies :=
        match emptyTile.GetSprites with
        | some arr => st.spritesBuffer ++ arr
        | none => st.spritesBuffer
      some
        { spritesBuffer := withEnemies
          spriteTileHitMap :=
            hitMapSet st.spriteTileHitMap tileCoord.1 tileCoord.2 true }
    | _ => none

/-- `GameEngine::ResetSpriteTileHitMap` (engine.rs lines 247-253): write
`false` into every entry `(x, y)` with `x < map.width`, `y < map.height`. -/
def ResetSpriteTileHitMap (m : Map) (hm : List (List Bool)) :
    List (List Bool) :=
  (List.range m.width.toNat).foldl
    (fun hmx (x : ℕ) =>
      (List.range m.height.toNat).foldl
        (fun hmy (y : ℕ) => hitMapSet hmy (x : ℤ) (y : ℤ) false) hmx)
    hm

/-- How a single screen column's traversal loop ends. -/
inductive ColumnEnd where
  /-- A wall slice was pushed onto `wallSlicesBuffer` and the loop broke. -/
  | pushed (s : WallSlice)
  /-- The `while WithinMap` condition was false, so the loop body never ran:
  no wall slice is emitted for this column. -/
  | exited
  /-- The loop advanced into the cell `c`, which lies outside the map bounds,
  and then called `GetTile(c)` on it: the interface does not define the
  behaviour of an out-of-bounds tile read, so the model stops here with a
  distinguished outcome (in the Rust code this read happens before the bounds
  check at the top of the loop ever sees `c`). -/
  | oobRead (c : ℤ × ℤ)
  /-- A fatal abort: the `Tile::NONE` arm of the match, or an abort inside
  `GrabSprites`. -/
  | fatal
  /-- Model artifact: the step bound was exhausted. -/
  | fuelOut
deriving DecidableEq, Repr

/-- The per-column traversal loop of `GameEngine::RenderIntoBuffers`
(engine.rs lines 139-171), for one screen column: while the cursor's cell is
within the map, remember whether the cell about to be exited is a door,
advance the cursor (`GoToNextHit`, kept abstract as `step`), and classify the
newly entered cell — a wall pushes a slice (with the door-jamb texture
override when the previous cell was a door) and breaks; a door pushes its
slice and breaks when it occludes the ray, else the loop continues; object
and empty tiles feed `GrabSprites` and the loop continues.  Faithful to the
source, the newly entered cell is classified before the `while` condition is
ever re-checked on it; the model surfaces a classification of an out-of-bounds
cell as `ColumnEnd.oobRead`. -/
def RenderColumnLoop (step : RayCursor → RayCursor)
    (lightPred : RayCursor → Bool) (m : Map) :
    Nat → RayCursor → ℤ × ℤ → SpriteState → ColumnEnd × SpriteState
  | 0, _, _, st => (ColumnEnd.fuelOut, st)
  | Nat.succ fuel, rayCursor, prevTileCoord, st =>
    if m.WithinMap rayCursor.hitTile then
      let prevTileWasDoor :=
        match m.GetTile prevTileCoord with
        | Tile.DOOR _ => true
        | _ => false
      let rayCursor' := step rayCursor
      let currTileCoord := rayCursor'.hitTile
      if m.WithinMap currTileCoord then
        match m.GetTile currTileCoord with
        | Tile.WALL wall =>
          let wallSlice := wall.GetWallSlice rayCursor'
          let wallSlice' :=
            if prevTileWasDoor then
              { wallSlice with
                  textureHandle :=
                    LightTexture lightPred rayCursor'
                      (TextureHandle.New TextureType.WALL 101)
                      (TextureHandle.New TextureType.WALL 102) }
            else wallSlice
          (ColumnEnd.pushed wallSlice', st)
        | Tile.DOOR door =>
          match door.GetWallSlice rayCursor' with
          | some doorWallSlice => (ColumnEnd.pushed doorWallSlice, st)
          | none =>
            RenderColumnLoop step lightPred m fuel rayCursor' currTileCoord st
        | Tile.OBJECT _ =>
          match GrabSprites m st currTileCoord with
          | some st' =>
            RenderColumnLoop step lightPred m fuel rayCursor' currTileCoord st'
          | none => (ColumnEnd.fatal, st)
        | Tile.EMPTY _ =>
          match GrabSprites m st currTileCoord with
          | some st' =>
            RenderColumnLoop step lightPred m fuel rayCursor' currTileCoord st'
          | none => (ColumnEnd.fatal, st)
        | Tile.NONE => (ColumnEnd.fatal, st)
      else (ColumnEnd.oobRead currTileCoord, st)
    else (ColumnEnd.exited, st)

/-- A frame-aborting failure while filling the frame buffers: the column
index together with how its loop ended. -/
inductive FrameFailure where
  | oobRead (x : Nat) (c : ℤ × ℤ)
  | fatal (x : Nat)
  | fuelOut (x : Nat)
deriving DecidableEq, Repr

/-- Run the traversal loop for the screen columns `x, x+1, …, width-1`
(engine.rs lines 136-172), threading the sprite state and recording, per
column, the wall slice it pushed (`some`) or that it emitted none (`none`).
The per-column initial cursor (`Ray::New` of the rotated view direction plus
`RayCursor::New` at the player location, both outside `src/`) is abstracted
as `initCursor`. -/
def RenderColumnsGo (step : RayCursor → RayCursor)
    (lightPred : RayCursor → Bool) (m : Map) (fuel : Nat)
    (initCursor : Nat → RayCursor) :
    Nat → Nat → SpriteState →
      Except FrameFailure (List (Option WallSlice) × SpriteState)
  | _, 0, st => Except.ok ([], st)
  | x, Nat.succ remaining, st =>
    let rayCursor := initCursor x
    match RenderColumnLoop step lightPred m fuel rayCursor rayCursor.hitTile st
      with
    | (ColumnEnd.pushed s, st') =>
      match RenderColumnsGo step lightPred m fuel initCursor (x + 1) remaining
          st' with
      | Except.ok (cols, st'') => Except.ok (some s :: cols, st'')
      | Except.error f => Except.error f
    | (ColumnEnd.exited, st') =>
      match RenderColumnsGo step lightPred m fuel initCursor (x + 1) remaining
          st' with
      | Except.ok (cols, st'') => Except.ok (none :: cols, st'')
      | Except.error f => Except.error f
    | (ColumnEnd.oobRead c, _) => Except.error (FrameFailure.oobRead x c)
    | (ColumnEnd.fatal, _) => Except.error (FrameFailure.fatal x)
    | (ColumnEnd.fuelOut, _) => Except.error (FrameFailure.fuelOut x)

/-- The wall slices actually pushed onto `wallSlicesBuffer`, in push order:
the concatenation of the per-column emissions. -/
def WallSlicesOf (cols : List (Option WallSlice)) : List WallSlice :=
  cols.filterMap id

/-- `GameEngine::RenderIntoBuffers` (engine.rs lines 131-173): clear the wall
slice and sprite buffers, reset the tile-hit map, then run the traversal for
every screen column, producing the wall-slice buffer and the sprite state. -/
def RenderIntoBuffers (step : RayCursor → RayCursor)
    (lightPred : RayCursor → Bool) (m : Map) (fuel : Nat)
    (initCursor : Nat → RayCursor) (width : Nat) (hm : List (List Bool)) :
    Except FrameFailure (List WallSlice × SpriteState) :=
  match RenderColumnsGo step lightPred m fuel initCursor 0 width
      ⟨[], ResetSpriteTileHitMap m hm⟩ with
  | Except.ok (cols, st) => Except.ok (WallSlicesOf cols, st)
  | Except.error f => Except.error f

/-- A drawing operation issued to the SDL canvas. -/
inductive DrawEvent where
  | clear
  | fillRect (color : ℤ × ℤ × ℤ × ℤ) (r : Rect)
  | copy (t : TextureHandle) (src dst : Rect)
  | present
deriving DecidableEq, Repr

/-- `GameEngine::DrawCeilingAndFloor` (engine.rs lines 123-129): fill the top
half and the bottom half of the window with two flat grey colors. -/
def DrawCeilingAndFloor (windowWidth windowHeight : Nat) : List DrawEvent :=
  [DrawEvent.fillRect (50, 50, 50, 255)
      (Rect.new 0 0 (windowWidth : ℤ) ((windowHeight / 2 : Nat) : ℤ)),
    DrawEvent.fillRect (96, 96, 96, 255)
      (Rect.new 0 ((windowHeight / 2 : Nat) : ℤ) (windowWidth : ℤ)
        ((windowHeight / 2 : Nat) : ℤ))]

/-- `GameEngine::ResetWallRenderHeights` (engine.rs lines 255-259): write 0
into every entry of the wall-height buffer. -/
def ResetWallRenderHeights (heights : List ℤ) : List ℤ :=
  heights.map (fun _ => 0)

/-- The indexed loop body of `GameEngine::DrawWallsFromBuffer` (engine.rs
lines 177-190): for the `x`-th remaining slice, compute the render height
from the render-height constant, the slice's hit distance and the cosine
factor `castingRayAngles[x].1`, store it at index `x` of the wall-height
buffer, and emit the blit of the slice's texture strip. -/
def DrawWallsGo (renderHeightProprConst : ℚ) (castingRayAngles : Nat → ℚ × ℚ)
    (windowHeight : Nat) :
    Nat → List WallSlice → List ℤ → List DrawEvent → List ℤ × List DrawEvent
  | _, [], heights, events => (heights, events)
  | x, wallSlice :: rest, heights, events =>
    let renderHeight :=
      f64AsI32
        (renderHeightProprConst /
          (wallSlice.dist * (castingRayAngles x).2))
    let screenY := ((windowHeight / 2 : Nat) : ℤ) - Int.tdiv renderHeight 2
    let screenRect := Rect.new (x : ℤ) screenY 1 (i32AsU32 renderHeight)
    DrawWallsGo renderHeightProprConst castingRayAngles windowHeight (x + 1)
      rest (heights.set x renderHeight)
      (events ++ [DrawEvent.copy wallSlice.textureHandle wallSlice.textureRect
        screenRect])

/-- `GameEngine::DrawWallsFromBuffer` (engine.rs lines 175-191): reset the
wall-height buffer, then process the wall-slice buffer in order. -/
def DrawWallsFromBuffer (renderHeightProprConst : ℚ)
    (castingRayAngles : Nat → ℚ × ℚ) (windowHeight : Nat) (heights : List ℤ)
    (slices : List WallSlice) : List ℤ × List DrawEvent :=
  DrawWallsGo renderHeightProprConst castingRayAngles windowHeight 0 slices
    (ResetWallRenderHeights heights) []

/-- The view-related state of the player consumed by the render passes:
location, forward axis, right axis and the current weapon texture handle. -/
structure PlayerView where
  location : Vec2
  viewDir : Vec2
  east : Vec2
  weaponTexture : TextureHandle
deriving DecidableEq, Repr

/-- The per-sprite projection record (`SpriteRenderData` of engine.rs lines
17-25). -/
structure SpriteRenderData where
  vecToSprite : Vec2
  spriteHitDistY : ℚ
  spriteHitDistX : ℚ
  spriteScreenX : ℤ
  spriteRenderHeight : ℤ
  spriteScreenRect : Rect
  spriteTextureHandle : TextureHandle
deriving DecidableEq, Repr

/-- The projection step of `GameEngine::DrawSpritesFromBuffer` (engine.rs
lines 195-213): vector from player to sprite, signed depth along the view
axis, signed lateral offset along the east axis, projected screen X, square
render height, and the square screen rectangle centered on screen X and on
the vertical mid-line. -/
def ComputeSpriteRenderData (player : PlayerView)
    (windowWidth windowHeight : Nat) (projPlaneDist : ℚ)
    (renderHeightProprConst : ℚ) (sprite : Sprite) : SpriteRenderData :=
  let vecToSprite := sprite.location - player.location
  let spriteHitDistY := Dot vecToSprite player.viewDir
  let spriteHitDistX := Dot vecToSprite player.east
  let spriteScreenX :=
    f64AsI32 (((windowWidth / 2 : Nat) : ℚ) +
      (projPlaneDist / spriteHitDistY) * spriteHitDistX)
  let spriteRenderHeight := f64AsI32 (renderHeightProprConst / spriteHitDistY)
  let spriteScreenRect :=
    Rect.new (spriteScreenX - Int.tdiv spriteRenderHeight 2)
      (Int.tdiv (windowHeight : ℤ) 2 - Int.tdiv spriteRenderHeight 2)
      (i32AsU32 spriteRenderHeight) (i32AsU32 spriteRenderHeight)
  { vecToSprite := vecToSprite
    spriteHitDistY := spriteHitDistY
    spriteHitDistX := spriteHitDistX
    spriteScreenX := spriteScreenX
    spriteRenderHeight := spriteRenderHeight
    spriteScreenRect := spriteScreenRect
    spriteTextureHandle := sprite.textureHandle }

/-- The comparator of the sort at engine.rs line 215: ascending by
`spriteRenderHeight`. -/
def spriteLe (a b : SpriteRenderData) : Bool :=
  decide (a.spriteRenderHeight ≤ b.spriteRenderHeight)

/-- The per-sprite rasterization loop of `GameEngine::DrawSpritesFromBuffer`
(engine.rs lines 218-235): walk the columns of the sprite's screen rectangle;
skip columns left of the window, break at the right window edge, and draw the
one-pixel strip at each remaining column whose wall-height entry does not
exceed the sprite's render height. -/
def SpriteColumnsGo (windowWidth : ℤ) (wallRenderHeights : List ℤ)
    (s : SpriteRenderData) : ℤ → Nat → List DrawEvent
  | _, 0 => []
  | x, Nat.succ remaining =>
    if x < 0 then SpriteColumnsGo windowWidth wallRenderHeights s (x + 1)
      remaining
    else if windowWidth ≤ x then []
    else
      (if wallRenderHeights.getD x.toNat 0 ≤ s.spriteRenderHeight then
        let spriteTextureWidthPercent :=
          ((x - s.spriteScreenRect.x : ℤ) : ℚ) / ((s.spriteScreenRect.w : ℤ) : ℚ)
        let spriteTextureX :=
          f64AsI32 (spriteTextureWidthPercent * (TEXTURE_PITCH : ℚ))
        let spriteTextureRect := Rect.new spriteTextureX 0 1 TEXTURE_PITCH
        let screenRect :=
          Rect.new x s.spriteScreenRect.y 1 (i32AsU32 s.spriteScreenRect.h)
        [DrawEvent.copy s.spriteTextureHandle spriteTextureRect screenRect]
      else []) ++
        SpriteColumnsGo windowWidth wallRenderHeights s (x + 1) remaining

/-- All pixel strips drawn for one sprite render record: the rasterization
loop started at the rectangle's left edge, running for its width. -/
def DrawSpriteColumns (windowWidth : ℤ) (wallRenderHeights : List ℤ)
    (s : SpriteRenderData) : List DrawEvent :=
  SpriteColumnsGo windowWidth wallRenderHeights s s.spriteScreenRect.x
    s.spriteScreenRect.w.toNat

/-- `GameEngine::DrawSpritesFromBuffer` (engine.rs lines 193-237): project
every sprite of the frame's sprite buffer into a render record, sort the
records ascending by render height, then rasterize them in that order
against the wall-height buffer.  Returns the sorted record list and the
draw events in issue order. -/
def DrawSpritesFromBuffer (player : PlayerView)
    (windowWidth windowHeight : Nat) (projPlaneDist : ℚ)
    (renderHeightProprConst : ℚ) (wallRenderHeights : List ℤ)
    (spritesBuffer : List Sprite) : List SpriteRenderData × List DrawEvent :=
  let records :=
    spritesBuffer.map
      (ComputeSpriteRenderData player windowWidth windowHeight projPlaneDist
        renderHeightProprConst)
  let sorted := records.mergeSort spriteLe
  (sorted,
    sorted.foldl
      (fun events s =>
        events ++ DrawSpriteColumns (windowWidth : ℤ) wallRenderHeights s)
      [])

/-- The weapon overlay placement computed in `GameEngine::Init` (engine.rs
lines 45-46, 69-71, 91-92). -/
structure WeaponCfg where
  topLeft : ℤ × ℤ
  pitch : ℤ
deriving DecidableEq, Repr

/-- `GameEngine::DrawWeapon` (engine.rs lines 239-245): blit the player's
current weapon texture, whole, to the fixed weapon rectangle. -/
def DrawWeapon (weapon : WeaponCfg) (player : PlayerView) : DrawEvent :=
  DrawEvent.copy player.weaponTexture (Rect.new 0 0 TEXTURE_PITCH TEXTURE_PITCH)
    (Rect.new weapon.topLeft.1 weapon.topLeft.2 (i32AsU32 weapon.pitch)
      (i32AsU32 weapon.pitch))

/-- The engine state consumed and updated by one frame: the render-relevant
fields of `GameEngine`, with the external geometry (per-column initial
cursor, DDA advance, lighting predicate, angle table, projection constants)
as explicit parameters. -/
structure EngineState where
  player : PlayerView
  map : Map
  windowWidth : Nat
  windowHeight : Nat
  projPlaneDist : ℚ
  renderHeightProprConst : ℚ
  castingRayAngles : Nat → ℚ × ℚ
  initCursor : Nat → RayCursor
  stepCursor : RayCursor → RayCursor
  lightPred : RayCursor → Bool
  wallRenderHeights : List ℤ
  spriteTileHitMap : List (List Bool)
  weapon : WeaponCfg

/-- `GameEngine::RenderFrame` (engine.rs lines 113-121): clear the canvas,
draw ceiling and floor, fill the frame buffers, draw the walls, draw the
sprites, draw the weapon overlay, present.  Returns the updated engine state
and the full, ordered canvas event trace of the frame. -/
def RenderFrame (st : EngineState) (fuel : Nat) :
    Except FrameFailure (EngineState × List DrawEvent) :=
  match RenderIntoBuffers st.stepCursor st.lightPred st.map fuel st.initCursor
      st.windowWidth st.spriteTileHitMap with
  | Except.error f => Except.error f
  | Except.ok (slices, sst) =>
    let wallPass :=
      DrawWallsFromBuffer st.renderHeightProprConst st.castingRayAngles
        st.windowHeight st.wallRenderHeights slices
    let spritePass :=
      DrawSpritesFromBuffer st.player st.windowWidth st.windowHeight
        st.projPlaneDist st.renderHeightProprConst wallPass.1
        sst.spritesBuffer
    Except.ok
      ({ st with
          wallRenderHeights := wallPass.1
          spriteTileHitMap := sst.spriteTileHitMap },
        DrawEvent.clear ::
          (DrawCeilingAndFloor st.windowWidth st.windowHeight ++
            wallPass.2 ++ spritePass.2 ++
            [DrawWeapon st.weapon st.player, DrawEvent.present]))

/-- The wall pass of one frame: `DrawWallsFromBuffer` applied to the frame's
wall-slice buffer and the engine's wall-height buffer. -/
def frameWallPass (st : EngineState) (slices : List WallSlice) :
    List ℤ × List DrawEvent :=
  DrawWallsFromBuffer st.renderHeightProprConst st.castingRayAngles
    st.windowHeight st.wallRenderHeights slices

/-- The sprite-pass events of one frame: `DrawSpritesFromBuffer` applied to
the frame's sprite buffer and the wall-height buffer as fully written by the
completed wall pass. -/
def frameSpriteEvents (st : EngineState) (slices : List WallSlice)
    (sst : SpriteState) : List DrawEvent :=
  (DrawSpritesFromBuffer st.player st.windowWidth st.windowHeight
    st.projPlaneDist st.renderHeightProprConst (frameWallPass st slices).1
    sst.spritesBuffer).2

/-- The staged canvas trace of one frame: clear, ceiling and floor, the wall
block, the sprite block, the weapon overlay, present. -/
def frameTrace (st : EngineState) (slices : List WallSlice)
    (sst : SpriteState) : List DrawEvent :=
  DrawEvent.clear ::
    (DrawCeilingAndFloor st.windowWidth st.windowHeight ++
      (frameWallPass st slices).2 ++ frameSpriteEvents st slices sst ++
      [DrawWeapon st.weapon st.player, DrawEvent.present])

/-- The phases observable in one game-loop iteration. -/
inductive LoopEvent where
  | updateEv
  | renderEv
deriving DecidableEq, Repr

/-- `GameEngine::GameLoop` (engine.rs lines 98-104), abstracted over the
full program state `S`: each iteration runs the update phase, then evaluates
the quit predicate once, breaking out of the loop when it holds and running
the render phase otherwise.  The fuel bounds the number of iterations the
model observes; the event trace records the phases in execution order. -/
def GameLoop {S : Type} (update : S → S) (quitOf : S → Bool)
    (render : S → S) : Nat → S → S × List LoopEvent
  | 0, s => (s, [])
  | Nat.succ n, s =>
    let s1 := update s
    if quitOf s1 then (s1, [LoopEvent.updateEv])
    else
      let r := GameLoop update quitOf render n (render s1)
      (r.1, LoopEvent.updateEv :: LoopEvent.renderEv :: r.2)

/-- Iterate `GrabSprites` on the same tile coordinate `n` times: the effect
of `n` distinct ray columns of one frame traversing the same tile. -/
def GrabSpritesN (m : Map) (c : ℤ × ℤ) : Nat → SpriteState → Option SpriteState
  | 0, st => some st
  | Nat.succ n, st => (GrabSprites m st c).bind (GrabSpritesN m c n)

/-- The sprite set a tile contributes to the frame's sprite buffer when first
visited: for an object tile its static sprite plus (when it hosts enemies)
its enemy sprites, for an empty tile its enemy sprites, and nothing for the
tile kinds `GrabSprites` treats as fatal. -/
def TileSpriteSet : Tile → Option (List Sprite)
  | Tile.OBJECT o =>
    some ([o.objectSprite] ++
      (if o.IsEnemyHolder then
        match o.GetSprites with
        | some arr => arr
        | none => []
      else []))
  | Tile.EMPTY e =>
    some
      (match e.GetSprites with
      | some arr => arr
      | none => [])
  | _ => none

/-- The screen columns at which a list of canvas events draws one-pixel
strips: the destination x of each copy event. -/
def drawnColumns (events : List DrawEvent) : List ℤ :=
  events.filterMap
    (fun e =>
      match e with
      | DrawEvent.copy _ _ dst => some dst.x
      | _ => none)

/-- An arbitrary wall slice, used as the default of out-of-range indexed
reads in theorem statements (every such read is guarded by a bound). -/
def anySlice : WallSlice :=
  ⟨0, TextureHandle.New TextureType.WALL 0, ⟨0, 0, 1, 1⟩⟩

/-! ### Helper lemmas -/

theorem foldl_append_eq_join {α β : Type} (f : α → List β) :
    ∀ (l : List α) (init : List β),
      l.foldl (fun acc x => acc ++ f x) init = init ++ (l.map f).flatten := by
  intro l
  induction l with
  | nil => intro init; simp
  | cons x rest ih =>
    intro init
    simp [List.foldl_cons, ih (init ++ f x)]

theorem spriteLe_trans (a b c : SpriteRenderData) :
    spriteLe a b = true → spriteLe b c = true → spriteLe a c = true := by
  simp only [spriteLe, decide_eq_true_eq]
  omega

theorem spriteLe_total (a b : SpriteRenderData) :
    (spriteLe a b || spriteLe b a) = true := by
  simp only [spriteLe, Bool.or_eq_true, decide_eq_true_eq]
  omega

theorem hitMapGet_some_bounds {hm : List (List Bool)} {x y : ℤ} {b : Bool}
    (h : hitMapGet hm x y = some b) :
    0 ≤ x ∧ 0 ≤ y ∧ x.toNat < hm.length ∧
      y.toNat < (hm.getD x.toNat []).length := by
  by_cases hxy : 0 ≤ x ∧ 0 ≤ y
  · have hy' : y.toNat < (hm.getD x.toNat []).length := by
      have := h
      rw [hitMapGet, if_pos hxy] at this
      exact (List.getElem?_eq_some.mp this).1
    refine ⟨hxy.1, hxy.2, ?_, hy'⟩
    by_contra hx
    push_neg at hx
    have : hm.getD x.toNat [] = [] := by
      rw [List.getD_eq_getElem?_getD, List.getElem?_eq_none hx]
      rfl
    rw [this] at hy'
    simp at hy'
  · rw [hitMapGet, if_neg hxy] at h
    exact absurd h (by simp)

theorem hitMapSet_length (hm : List (List Bool)) (x y : ℤ) (b : Bool) :
    (hitMapSet hm x y b).length = hm.length := by
  rw [hitMapSet, List.length_set]

theorem hitMapSet_rows {hm : List (List Bool)} {H : ℕ}
    (hrow : ∀ r ∈ hm, r.length = H) (x y : ℤ) (b : Bool) :
    ∀ r ∈ hitMapSet hm x y b, r.length = H := by
  intro r hr
  rw [hitMapSet] at hr
  by_cases hx : x.toNat < hm.length
  · rcases List.mem_or_eq_of_mem_set hr with h | h
    · exact hrow r h
    · have hmem : hm.getD x.toNat [] ∈ hm := by
        rw [List.getD_eq_getElem?_getD, List.getElem?_eq_getElem hx]
        exact List.getElem_mem hx
      rw [h, List.length_set]
      exact hrow _ hmem
  · rw [List.set_eq_of_length_le (by omega)] at hr
    exact hrow r hr

theorem hitMapGet_hitMapSet_self {hm : List (List Bool)} {x y : ℤ}
    {b₀ : Bool} (h : hitMapGet hm x y = some b₀) (b : Bool) :
    hitMapGet (hitMapSet hm x y b) x y = some b := by
  obtain ⟨hx, hy, hxl, hyl⟩ := hitMapGet_some_bounds h
  rw [hitMapGet, if_pos ⟨hx, hy⟩, hitMapSet]
  rw [List.getD_eq_getElem?_getD, List.getElem?_set_self hxl]
  simpa using List.getElem?_set_self hyl

theorem hitMapGet_hitMapSet_self_wf {hm : List (List Bool)} {W H : ℕ}
    (hml : hm.length = W) (hrow : ∀ r ∈ hm, r.length = H) {x y : ℤ}
    (hx : 0 ≤ x) (hxW : x.toNat < W) (hy : 0 ≤ y) (hyH : y.toNat < H)
    (b : Bool) : hitMapGet (hitMapSet hm x y b) x y = some b := by
  have hxl : x.toNat < hm.length := by omega
  have hmem : hm.getD x.toNat [] ∈ hm := by
    rw [List.getD_eq_getElem?_getD, List.getElem?_eq_getElem hxl]
    exact List.getElem_mem hxl
  have hyl : y.toNat < (hm.getD x.toNat []).length := by
    rw [hrow _ hmem]; exact hyH
  rw [hitMapGet, if_pos ⟨hx, hy⟩, hitMapSet]
  rw [List.getD_eq_getElem?_getD, List.getElem?_set_self hxl]
  simpa using List.getElem?_set_self hyl

theorem hitMapGet_hitMapSet_ne {hm : List (List Bool)} {x y x' y' : ℤ}
    (hx : 0 ≤ x) (hy : 0 ≤ y) (hne : x' ≠ x ∨ y' ≠ y) (b : Bool) :
    hitMapGet (hitMapSet hm x y b) x' y' = hitMapGet hm x' y' := by
  by_cases hxy' : 0 ≤ x' ∧ 0 ≤ y'
  · rw [hitMapGet, if_pos hxy', hitMapGet, if_pos hxy', hitMapSet]
    obtain ⟨hx', hy'⟩ := hxy'
    by_cases hxx : x'.toNat = x.toNat
    · have hx'x : x' = x := by omega
      have hyy : y'.toNat ≠ y.toNat := by
        rcases hne with h | h
        · exact absurd hx'x h
        · omega
      by_cases hxl : x.toNat < hm.length
      · rw [hxx, List.getD_eq_getElem?_getD, List.getElem?_set_self hxl,
          List.getD_eq_getElem?_getD]
        simp only [Option.getD_some]
        exact List.getElem?_set_ne (by omega)
      · rw [List.set_eq_of_length_le (by omega)]
    · rw [List.getD_eq_getElem?_getD, List.getElem?_set_ne (by omega),
        List.getD_eq_getElem?_getD]
  · rw [hitMapGet, if_neg hxy', hitMapGet, if_neg hxy']

theorem foldl_setRow_wf {W H : ℕ} (x : ℤ) :
    ∀ (ys : List ℕ) (hm : List (List Bool)), hm.length = W →
      (∀ r ∈ hm, r.length = H) →
      (ys.foldl (fun a (y : ℕ) => hitMapSet a x (y : ℤ) false) hm).length = W ∧
        ∀ r ∈ ys.foldl (fun a (y : ℕ) => hitMapSet a x (y : ℤ) false) hm,
          r.length = H := by
  intro ys
  induction ys with
  | nil => intro hm hml hrow; exact ⟨hml, hrow⟩
  | cons y ys ih =>
    intro hm hml hrow
    simp only [List.foldl_cons]
    exact ih _ (by rw [hitMapSet_length]; exact hml) (hitMapSet_rows hrow _ _ _)

theorem foldl_setRow_get {W H : ℕ} {x : ℤ} (hx : 0 ≤ x) (hxW : x.toNat < W) :
    ∀ (ys : List ℕ), (∀ a ∈ ys, a < H) →
      ∀ (hm : List (List Bool)), hm.length = W →
        (∀ r ∈ hm, r.length = H) →
        ∀ {x' y' : ℤ}, 0 ≤ x' → 0 ≤ y' →
          hitMapGet (ys.foldl (fun a (y : ℕ) => hitMapSet a x (y : ℤ) false) hm)
              x' y' =
            if x' = x ∧ y'.toNat ∈ ys then some false
            else hitMapGet hm x' y' := by
  intro ys
  induction ys with
  | nil => intro _ hm _ _ x' y' _ _; simp
  | cons y ys ih =>
    intro hys hm hml hrow x' y' hx' hy'
    simp only [List.foldl_cons]
    rw [ih (fun a ha => hys a (List.mem_cons_of_mem y ha)) _
      (by rw [hitMapSet_length]; exact hml) (hitMapSet_rows hrow _ _ _) hx' hy']
    by_cases hxx : x' = x
    · by_cases hmem : y'.toNat ∈ ys
      · simp [hxx, hmem]
      · by_cases hyy : y'.toNat = y
        · have hy'y : y' = (y : ℤ) := by omega
          subst hxx; subst hy'y
          have hmem' : y ∉ ys := by simpa using hmem
          rw [if_neg (by simp [hmem']), if_pos ⟨rfl, by simp⟩]
          exact hitMapGet_hitMapSet_self_wf hml hrow hx hxW hy'
            (by simpa [Int.toNat_ofNat] using hys y (by simp)) false
        · rw [if_neg (by simp [hmem]), if_neg (by simp [hyy, hmem]),
            hitMapGet_hitMapSet_ne hx (by omega) (Or.inr (by omega))]
    · rw [if_neg (by simp [hxx]), if_neg (by simp [hxx]),
        hitMapGet_hitMapSet_ne hx (by omega) (Or.inl hxx)]

theorem foldl_reset_get {W H : ℕ} :
    ∀ (xs : List ℕ), (∀ a ∈ xs, a < W) →
      ∀ (hm : List (List Bool)), hm.length = W →
        (∀ r ∈ hm, r.length = H) →
        ∀ {x' y' : ℤ}, 0 ≤ x' → x'.toNat < W → 0 ≤ y' → y'.toNat < H →
          hitMapGet
              (xs.foldl
                (fun a (x : ℕ) =>
                  (List.range H).foldl
                    (fun a2 (y : ℕ) => hitMapSet a2 (x : ℤ) (y : ℤ) false) a)
                hm) x' y' =
            if x'.toNat ∈ xs then some false else hitMapGet hm x' y' := by
  intro xs
  induction xs with
  | nil => intro _ hm _ _ x' y' _ _ _ _; simp
  | cons x xs ih =>
    intro hxs hm hml hrow x' y' hx' hx'W hy' hy'H
    simp only [List.foldl_cons]
    have hinner_wf :=
      foldl_setRow_wf (x : ℤ) (List.range H) hm hml hrow
    rw [ih (fun a ha => hxs a (List.mem_cons_of_mem x ha)) _ hinner_wf.1
      hinner_wf.2 hx' hx'W hy' hy'H]
    have hinner :=
      foldl_setRow_get (x := (x : ℤ)) (by simp)
        (by simpa [Int.toNat_ofNat] using hxs x (by simp)) (List.range H)
        (by simp) hm hml hrow hx' hy'
    by_cases hmem : x'.toNat ∈ xs
    · simp [hmem]
    · rw [if_neg (by simpa using hmem), hinner]
      by_cases hxx : x'.toNat = x
      · have hx'x : x' = (x : ℤ) := by omega
        rw [if_pos ⟨hx'x, by simpa using hy'H⟩, if_pos (by simp [hxx])]
      · rw [if_neg (by rintro ⟨h1, _⟩; omega),
          if_neg (by simpa [hxx] using hmem)]

theorem grabSprites_first_visit {m : Map} {st : SpriteState} {c : ℤ × ℤ}
    {sps : List Sprite}
    (hget : hitMapGet st.spriteTileHitMap c.1 c.2 = some false)
    (hsps : TileSpriteSet (m.GetTile c) = some sps) :
    GrabSprites m st c =
      some ⟨st.spritesBuffer ++ sps,
        hitMapSet st.spriteTileHitMap c.1 c.2 true⟩ := by
  rw [GrabSprites, hget]
  cases htile : m.GetTile c with
  | OBJECT o =>
    rw [htile] at hsps
    simp only [TileSpriteSet, Option.some_inj] at hsps
    subst hsps
    by_cases hh : o.IsEnemyHolder = true
    · cases hspr : o.GetSprites with
      | some arr => simp [hh, hspr]
      | none => simp [hh, hspr]
    · simp [hh, Bool.eq_false_iff.mpr hh]
  | EMPTY e =>
    rw [htile] at hsps
    simp only [TileSpriteSet, Option.some_inj] at hsps
    subst hsps
    cases hspr : e.GetSprites with
    | some arr => simp [hspr]
    | none => simp [hspr]
  | WALL w => rw [htile] at hsps; exact absurd hsps (by simp [TileSpriteSet])
  | DOOR d => rw [htile] at hsps; exact absurd hsps (by simp [TileSpriteSet])
  | NONE => rw [htile] at hsps; exact absurd hsps (by simp [TileSpriteSet])

theorem grabSprites_revisit {m : Map} {st : SpriteState} {c : ℤ × ℤ}
    (hget : hitMapGet st.spriteTileHitMap c.1 c.2 = some true) :
    GrabSprites m st c = some st := by
  rw [GrabSprites, hget]

theorem grabSpritesN_revisit {m : Map} {st : SpriteState} {c : ℤ × ℤ}
    (hget : hitMapGet st.spriteTileHitMap c.1 c.2 = some true) :
    ∀ n, GrabSpritesN m c n st = some st := by
  intro n
  induction n with
  | zero => rfl
  | succ n ih => rw [GrabSpritesN, grabSprites_revisit hget, Option.bind]; exact ih

/-! ### Claim C4 — tile-hit map idempotence -/

/-- Claim C4: within one frame, a tile traversed by `N ≥ 1` ray columns
contributes its sprite set to the sprite buffer exactly once — the tile-hit
map is reset to all-false at the start of the frame's render pass
(`ResetSpriteTileHitMap` makes every in-bounds entry false), `GrabSprites`
appends the tile's sprites and marks the tile on the first visit, and every
later visit leaves the state unchanged. -/
theorem C4_tile_sprites_exactly_once (m : Map) (st : SpriteState)
    (c : ℤ × ℤ) (sps : List Sprite) (n : Nat) (hm0 : List (List Bool))
    (x y : ℤ) (hn : 1 ≤ n)
    (hget : hitMapGet st.spriteTileHitMap c.1 c.2 = some false)
    (hsps : TileSpriteSet (m.GetTile c) = some sps)
    (hml : hm0.length = m.width.toNat)
    (hrow : ∀ r ∈ hm0, r.length = m.height.toNat)
    (hx : 0 ≤ x) (hxw : x < m.width) (hy : 0 ≤ y) (hyh : y < m.height) :
    GrabSpritesN m c n st =
      some ⟨st.spritesBuffer ++ sps,
        hitMapSet st.spriteTileHitMap c.1 c.2 true⟩ ∧
    hitMapGet (ResetSpriteTileHitMap m hm0) x y = some false := by
  constructor
  · obtain ⟨k, rfl⟩ : ∃ k, n = k + 1 := ⟨n - 1, by omega⟩
    rw [GrabSpritesN, grabSprites_first_visit hget hsps, Option.bind]
    exact grabSpritesN_revisit (hitMapGet_hitMapSet_self hget true) k
  · rw [ResetSpriteTileHitMap,
      foldl_reset_get (List.range m.width.toNat) (by simp) hm0 hml hrow hx
        (by omega) hy (by omega),
      if_pos (by simp; omega)]

/-- Witness for C4: on a 1×1 map holding one object tile with a single static
sprite, three traversals of the tile append the sprite once, and the reset
of a 1×1 tile-hit map makes its entry false. -/
theorem C4_tile_sprites_exactly_once_witness :
    GrabSpritesN
        ⟨1, 1, fun _ =>
          Tile.OBJECT ⟨⟨((0 : ℚ), (0 : ℚ)), TextureHandle.New
            TextureType.SPRITE 3⟩, [], false⟩⟩
        ((0 : ℤ), (0 : ℤ)) 3 ⟨[], [[false]]⟩ =
      some ⟨[] ++ [⟨((0 : ℚ), (0 : ℚ)), TextureHandle.New TextureType.SPRITE
        3⟩], hitMapSet [[false]] 0 0 true⟩ ∧
    hitMapGet
        (ResetSpriteTileHitMap
          ⟨1, 1, fun _ =>
            Tile.OBJECT ⟨⟨((0 : ℚ), (0 : ℚ)), TextureHandle.New
              TextureType.SPRITE 3⟩, [], false⟩⟩ [[true]]) 0 0 =
      some false :=
  C4_tile_sprites_exactly_once
    ⟨1, 1, fun _ =>
      Tile.OBJECT ⟨⟨((0 : ℚ), (0 : ℚ)), TextureHandle.New TextureType.SPRITE
        3⟩, [], false⟩⟩
    ⟨[], [[false]]⟩ ((0 : ℤ), (0 : ℤ))
    [⟨((0 : ℚ), (0 : ℚ)), TextureHandle.New TextureType.SPRITE 3⟩] 3
    [[true]] 0 0 (by decide) (by decide)
    (by rfl) (by decide) (by decide) (by decide) (by decide) (by decide)
    (by decide)

theorem drawWallsGo_heights (renderHeightProprConst : ℚ)
    (castingRayAngles : Nat → ℚ × ℚ) (windowHeight : Nat) :
    ∀ (slices : List WallSlice) (x : Nat) (heights : List ℤ)
      (events : List DrawEvent) (i : Nat),
      ((DrawWallsGo renderHeightProprConst castingRayAngles windowHeight x
          slices heights events).1)[i]? =
        if x ≤ i ∧ i < x + slices.length ∧ i < heights.length then
          some (f64AsI32 (renderHeightProprConst /
            ((slices.getD (i - x) anySlice).dist * (castingRayAngles i).2)))
        else heights[i]? := by
  intro slices
  induction slices with
  | nil =>
    intro x heights events i
    rw [DrawWallsGo, if_neg (by simp only [List.length_nil]; omega)]
  | cons s rest ih =>
    intro x heights events i
    rw [DrawWallsGo, ih]
    simp only [List.length_set, List.length_cons]
    by_cases hix : i = x
    · subst hix
      rw [if_neg (by omega)]
      by_cases hlen : i < heights.length
      · rw [if_pos ⟨by omega, by omega, hlen⟩, List.getElem?_set_self hlen]
        simp
      · rw [if_neg (by omega), List.getElem?_set, if_pos rfl, if_neg hlen,
          List.getElem?_eq_none (by omega)]
    · rw [List.getElem?_set_ne (by omega)]
      by_cases hcond : x ≤ i ∧ i < x + (rest.length + 1) ∧ i < heights.length
      · rw [if_pos ⟨by omega, by omega, hcond.2.2⟩, if_pos hcond]
        have hsub : i - x = (i - (x + 1)) + 1 := by omega
        rw [hsub, List.getD_cons_succ]
      · rw [if_neg (by omega), if_neg hcond]

theorem drawWallsFromBuffer_heights (renderHeightProprConst : ℚ)
    (castingRayAngles : Nat → ℚ × ℚ) (windowHeight : Nat) (heights : List ℤ)
    (slices : List WallSlice) (i : Nat) :
    ((DrawWallsFromBuffer renderHeightProprConst castingRayAngles
        windowHeight heights slices).1)[i]? =
      if i < slices.length ∧ i < heights.length then
        some (f64AsI32 (renderHeightProprConst /
          ((slices.getD i anySlice).dist * (castingRayAngles i).2)))
      else if i < heights.length then some 0
      else none := by
  rw [DrawWallsFromBuffer, drawWallsGo_heights]
  simp only [ResetWallRenderHeights, List.length_map, Nat.zero_add,
    Nat.zero_le, true_and, Nat.sub_zero]
  by_cases hcond : i < slices.length ∧ i < heights.length
  · rw [if_pos hcond, if_pos hcond]
  · rw [if_neg hcond, if_neg hcond]
    by_cases hlen : i < heights.length
    · rw [if_pos hlen, List.getElem?_map, List.getElem?_eq_getElem hlen]
      rfl
    · rw [if_neg hlen, List.getElem?_map,
        List.getElem?_eq_none (by omega)]
      rfl

/-! ### Claim C8 — fisheye-corrected wall height -/

/-- Claim C8: for every emitted wall slice, the rendered wall height stored
in the wall-height buffer equals the render-height constant divided by the
product of the slice's Euclidean hit distance and the per-column
fisheye-correction cosine factor — i.e. it is inversely proportional to the
perpendicular (corrected) distance `dist · cos θ`, not to the raw Euclidean
distance alone.  The positivity hypothesis records that the projection is
only defined for hits at positive corrected distance (in `f64` a zero
denominator would not produce this value). -/
theorem C8_wall_height_fisheye_corrected (renderHeightProprConst : ℚ)
    (castingRayAngles : Nat → ℚ × ℚ) (windowHeight : Nat) (heights : List ℤ)
    (slices : List WallSlice) (i : Nat) (hi : i < slices.length)
    (hlen : i < heights.length)
    (hpos : 0 < (slices.getD i anySlice).dist * (castingRayAngles i).2) :
    ((DrawWallsFromBuffer renderHeightProprConst castingRayAngles
        windowHeight heights slices).1).getD i 0 =
      f64AsI32 (renderHeightProprConst /
        ((slices.getD i anySlice).dist * (castingRayAngles i).2)) := by
  rw [List.getD_eq_getElem?_getD, drawWallsFromBuffer_heights,
    if_pos ⟨hi, hlen⟩]
  rfl

/-- Witness for C8: a single slice at Euclidean distance 1 with cosine
factor 1 and render-height constant 10 yields buffer entry
`⌊10 / (1·1)⌋ = 10`. -/
theorem C8_wall_height_fisheye_corrected_witness :
    0 < ([⟨1, TextureHandle.New TextureType.WALL 5, ⟨0, 0, 1, 1⟩⟩].getD 0
        anySlice).dist * ((fun _ => ((0 : ℚ), (1 : ℚ))) 0).2 ∧
    ((DrawWallsFromBuffer 10 (fun _ => ((0 : ℚ), (1 : ℚ))) 4 [0]
        [⟨1, TextureHandle.New TextureType.WALL 5, ⟨0, 0, 1, 1⟩⟩]).1).getD 0
        0 =
      f64AsI32 (10 /
        (([⟨1, TextureHandle.New TextureType.WALL 5, ⟨0, 0, 1, 1⟩⟩].getD 0
          anySlice).dist * ((fun _ => ((0 : ℚ), (1 : ℚ))) 0).2)) := by
  constructor
  · norm_num
  · exact
      C8_wall_height_fisheye_corrected 10 (fun _ => ((0 : ℚ), (1 : ℚ))) 4 [0]
        [⟨1, TextureHandle.New TextureType.WALL 5, ⟨0, 0, 1, 1⟩⟩] 0
        (by decide) (by decide) (by norm_num)

theorem filterMap_id_getElem :
    ∀ (cols : List (Option WallSlice)) (x : ℕ) (s : WallSlice),
      cols[x]? = some (some s) →
        (WallSlicesOf cols)[((cols.take x).countP (fun o => o.isSome))]? =
          some s := by
  intro cols
  induction cols with
  | nil => intro x s hx; simp at hx
  | cons o rest ih =>
    intro x s hx
    cases x with
    | zero =>
      simp only [List.getElem?_cons_zero, Option.some_inj] at hx
      subst hx
      simp [WallSlicesOf]
    | succ x =>
      simp only [List.getElem?_cons_succ] at hx
      rw [List.take_succ_cons, List.countP_cons]
      cases o with
      | some t =>
        have h2 := ih x s hx
        simp only [WallSlicesOf, List.filterMap_cons, id] at h2 ⊢
        simp only [List.countP_cons, Option.isSome_some, if_true]
        rw [List.getElem?_cons_succ]
        exact h2
      | none =>
        have h2 := ih x s hx
        simp only [WallSlicesOf, List.filterMap_cons, id] at h2 ⊢
        simpa using h2

theorem countP_take_isSome_le (cols : List (Option WallSlice)) (x : ℕ) :
    (cols.take x).countP (fun o => o.isSome) ≤ x := by
  calc (cols.take x).countP (fun o => o.isSome) ≤ (cols.take x).length :=
        List.countP_le_length (fun (o : Option WallSlice) => o.isSome)
    _ ≤ x := by simp [List.length_take]

theorem countP_take_isSome_eq_iff (cols : List (Option WallSlice)) (x : ℕ)
    (hx : x ≤ cols.length) :
    (cols.take x).countP (fun o => o.isSome) = x ↔
      ∀ y, y < x → ∃ sy, cols[y]? = some (some sy) := by
  have hlen : (cols.take x).length = x := by
    rw [List.length_take]; omega
  constructor
  · intro hcount y hy
    have hall : ∀ a ∈ cols.take x, (fun o => Option.isSome o) a = true :=
      List.countP_eq_length.mp (by rw [hcount, hlen])
    have hmem : ∃ a, (cols.take x)[y]? = some a := by
      refine ⟨(cols.take x).get ⟨y, by omega⟩, ?_⟩
      exact List.getElem?_eq_getElem (by omega)
    obtain ⟨a, ha⟩ := hmem
    have haa : a ∈ cols.take x := by
      rw [List.mem_iff_getElem?]; exact ⟨y, ha⟩
    have hsome := hall a haa
    obtain ⟨sy, rfl⟩ := Option.isSome_iff_exists.mp hsome
    refine ⟨sy, ?_⟩
    rw [List.getElem?_take, if_pos hy] at ha
    exact ha
  · intro hall
    have hall' : ∀ a ∈ cols.take x, (fun o => Option.isSome o) a = true := by
      intro a ha
      obtain ⟨y, hy⟩ := List.mem_iff_getElem?.mp ha
      have hylt : y < x := by
        by_contra hge
        rw [List.getElem?_take, if_neg (by omega)] at hy
        exact absurd hy (by simp)
      rw [List.getElem?_take, if_pos hylt] at hy
      obtain ⟨sy, hsy⟩ := hall y hylt
      rw [hy] at hsy
      obtain rfl := Option.some_inj.mp hsy
      rfl
    have hc := List.countP_eq_length.mpr hall'
    rw [hc, hlen]

/-! ### Claim C10 — wall-height buffer indexing by slice position -/

/-- Claim C10: after the wall pass, every buffer entry below the number of
emitted slices is computed from the slice at that position using the cosine
factor of that same index, and every entry at or beyond the slice count
stays 0.  The slice a column emits lands at the buffer position equal to
the number of earlier columns that emitted a slice, which equals the column
index exactly when every earlier column emitted one — so a column that
emits no slice shifts all later columns' slices (and the cosine factors
used for them) to lower indexes. -/
theorem C10_wall_height_buffer_indexing (renderHeightProprConst : ℚ)
    (castingRayAngles : Nat → ℚ × ℚ) (windowHeight : Nat) (heights : List ℤ)
    (cols : List (Option WallSlice)) (x : ℕ) (s : WallSlice)
    (hx : cols[x]? = some (some s)) :
    (WallSlicesOf cols)[((cols.take x).countP (fun o => o.isSome))]? =
        some s ∧
    (cols.take x).countP (fun o => o.isSome) ≤ x ∧
    ((cols.take x).countP (fun o => o.isSome) = x ↔
      ∀ y, y < x → ∃ sy, cols[y]? = some (some sy)) ∧
    (∀ i, i < (WallSlicesOf cols).length → i < heights.length →
      ((DrawWallsFromBuffer renderHeightProprConst castingRayAngles
          windowHeight heights (WallSlicesOf cols)).1).getD i 0 =
        f64AsI32 (renderHeightProprConst /
          (((WallSlicesOf cols).getD i anySlice).dist *
            (castingRayAngles i).2))) ∧
    (∀ i, (WallSlicesOf cols).length ≤ i →
      ((DrawWallsFromBuffer renderHeightProprConst castingRayAngles
          windowHeight heights (WallSlicesOf cols)).1).getD i 0 = 0) := by
  refine ⟨filterMap_id_getElem cols x s hx, countP_take_isSome_le cols x,
    countP_take_isSome_eq_iff cols x ?_, ?_, ?_⟩
  · have : x < cols.length := by
      by_contra hge
      rw [List.getElem?_eq_none (by omega)] at hx
      exact absurd hx (by simp)
    omega
  · intro i hi hlen
    rw [List.getD_eq_getElem?_getD, drawWallsFromBuffer_heights,
      if_pos ⟨hi, hlen⟩]
    rfl
  · intro i hi
    rw [List.getD_eq_getElem?_getD, drawWallsFromBuffer_heights,
      if_neg (by omega)]
    by_cases hlen : i < heights.length
    · rw [if_pos hlen]; rfl
    · rw [if_neg hlen]; rfl

/-- Witness for C10: with column 0 emitting no slice and column 1 emitting
slice `s₀`, the slice of column 1 sits at buffer position 0, which differs
from its column index because column 0 emitted nothing. -/
theorem C10_wall_height_buffer_indexing_witness :
    ([none, some ⟨1, TextureHandle.New TextureType.WALL 5, ⟨0, 0, 1, 1⟩⟩] :
        List (Option WallSlice))[1]? =
      some (some ⟨1, TextureHandle.New TextureType.WALL 5, ⟨0, 0, 1, 1⟩⟩) ∧
    (WallSlicesOf
        [none, some ⟨1, TextureHandle.New TextureType.WALL 5,
          ⟨0, 0, 1, 1⟩⟩])[((([none, some ⟨1, TextureHandle.New
        TextureType.WALL 5, ⟨0, 0, 1, 1⟩⟩] :
        List (Option WallSlice)).take 1).countP (fun o => o.isSome))]? =
      some ⟨1, TextureHandle.New TextureType.WALL 5, ⟨0, 0, 1, 1⟩⟩ := by
  constructor
  · rfl
  · exact
      (C10_wall_height_buffer_indexing 10 (fun _ => ((0 : ℚ), (1 : ℚ))) 4 [0]
        [none, some ⟨1, TextureHandle.New TextureType.WALL 5, ⟨0, 0, 1, 1⟩⟩]
        1 ⟨1, TextureHandle.New TextureType.WALL 5, ⟨0, 0, 1, 1⟩⟩
        (by rfl)).1

theorem clampPosition_eq_self {v : ℤ} (h1 : rectMinIntValue ≤ v)
    (h2 : v ≤ rectMaxIntValue) : clampPosition v = v := by
  rw [clampPosition, if_neg (by omega), if_neg (by omega)]

theorem drawnColumns_nil : drawnColumns [] = [] := rfl

theorem drawnColumns_append (es1 es2 : List DrawEvent) :
    drawnColumns (es1 ++ es2) = drawnColumns es1 ++ drawnColumns es2 := by
  simp [drawnColumns]

theorem drawnColumns_copy_cons (t : TextureHandle) (src dst : Rect)
    (rest : List DrawEvent) :
    drawnColumns (DrawEvent.copy t src dst :: rest) =
      dst.x :: drawnColumns rest := rfl

theorem getD_nonneg {heights : List ℤ} (hnn : ∀ v ∈ heights, 0 ≤ v)
    (i : ℕ) : 0 ≤ heights.getD i 0 := by
  by_cases hl : i < heights.length
  · rw [List.getD_eq_getElem?_getD, List.getElem?_eq_getElem hl]
    exact hnn _ (List.getElem_mem hl)
  · rw [List.getD_eq_getElem?_getD, List.getElem?_eq_none (by omega)]
    exact le_refl 0

theorem spriteColumnsGo_mem {W : ℤ} (hW : W ≤ rectMaxIntValue)
    (heights : List ℤ) (s : SpriteRenderData) :
    ∀ (n : ℕ) (x0 y : ℤ),
      y ∈ drawnColumns (SpriteColumnsGo W heights s x0 n) ↔
        (x0 ≤ y ∧ y < x0 + n ∧ 0 ≤ y ∧ y < W ∧
          heights.getD y.toNat 0 ≤ s.spriteRenderHeight) := by
  intro n
  induction n with
  | zero =>
    intro x0 y
    simp only [SpriteColumnsGo, drawnColumns, List.filterMap_nil,
      List.not_mem_nil, false_iff, Nat.cast_zero]
    intro h
    omega
  | succ n ih =>
    intro x0 y
    by_cases h1 : x0 < 0
    · rw [SpriteColumnsGo, if_pos h1, ih]
      constructor
      · rintro ⟨a1, a2, a3, a4, a5⟩
        exact ⟨by omega, by push_cast; push_cast at a2; omega, a3, a4, a5⟩
      · rintro ⟨a1, a2, a3, a4, a5⟩
        exact ⟨by omega, by push_cast; push_cast at a2; omega, a3, a4, a5⟩
    · by_cases h2 : W ≤ x0
      · rw [SpriteColumnsGo, if_neg h1, if_pos h2]
        simp only [drawnColumns, List.filterMap_nil, List.not_mem_nil,
          false_iff]
        intro h
        omega
      · rw [SpriteColumnsGo, if_neg h1, if_neg h2]
        by_cases ht : heights.getD x0.toNat 0 ≤ s.spriteRenderHeight
        · rw [if_pos ht]
          have hx0 : (Rect.new x0 s.spriteScreenRect.y 1
              (i32AsU32 s.spriteScreenRect.h)).x = x0 := by
            rw [Rect.new]
            exact clampPosition_eq_self (by rw [rectMinIntValue]; omega)
              (by omega)
          rw [drawnColumns_append, drawnColumns_copy_cons, drawnColumns_nil,
            hx0, List.singleton_append, List.mem_cons, ih]
          constructor
          · rintro (rfl | ⟨a1, a2, a3, a4, a5⟩)
            · refine ⟨le_refl y, by push_cast; omega, by omega, by omega, ht⟩
            · exact ⟨by omega, by push_cast; push_cast at a2; omega, a3, a4,
                a5⟩
          · rintro ⟨a1, a2, a3, a4, a5⟩
            by_cases hyx : y = x0
            · exact Or.inl hyx
            · exact Or.inr ⟨by omega, by push_cast; push_cast at a2; omega,
                a3, a4, a5⟩
        · rw [if_neg ht]
          simp only [List.nil_append]
          rw [ih]
          constructor
          · rintro ⟨a1, a2, a3, a4, a5⟩
            exact ⟨by omega, by push_cast; push_cast at a2; omega, a3, a4, a5⟩
          · rintro ⟨a1, a2, a3, a4, a5⟩
            have hyx : y ≠ x0 := by
              intro hc
              subst hc
              exact ht a5
            exact ⟨by omega, by push_cast; push_cast at a2; omega, a3, a4, a5⟩

theorem spriteColumnsGo_nil {W : ℤ} {heights : List ℤ}
    {s : SpriteRenderData} (hneg : s.spriteRenderHeight < 0)
    (hnn : ∀ v ∈ heights, 0 ≤ v) :
    ∀ (n : ℕ) (x0 : ℤ), SpriteColumnsGo W heights s x0 n = [] := by
  intro n
  induction n with
  | zero => intro x0; rfl
  | succ n ih =>
    intro x0
    rw [SpriteColumnsGo]
    by_cases h1 : x0 < 0
    · rw [if_pos h1]; exact ih (x0 + 1)
    · rw [if_neg h1]
      by_cases h2 : W ≤ x0
      · rw [if_pos h2]
      · rw [if_neg h2,
          if_neg (by have := getD_nonneg hnn x0.toNat; omega),
          List.nil_append]
        exact ih (x0 + 1)

/-! ### Claim C3 — sprite-versus-wall occlusion test -/

/-- Counterexample to claim C3 as stated: the code draws a sprite strip when
the sprite's render height merely equals (does not exceed) the wall-height
entry.  A sprite projected to render height 5 against a wall-height buffer
holding 5 at column 2 has its strip drawn at column 2, yet its render height
does not exceed the buffer value there. -/
theorem C3_counterexample :
    (2 : ℤ) ∈ drawnColumns
        (DrawSpriteColumns 4 [5, 5, 5, 5]
          (ComputeSpriteRenderData
            ⟨((0 : ℚ), (0 : ℚ)), ((0 : ℚ), (1 : ℚ)), ((1 : ℚ), (0 : ℚ)),
              TextureHandle.New TextureType.WEAPON 0⟩
            4 4 1 5 ⟨((0 : ℚ), (1 : ℚ)), TextureHandle.New TextureType.SPRITE
              2⟩)) ∧
    ¬ ((ComputeSpriteRenderData
          ⟨((0 : ℚ), (0 : ℚ)), ((0 : ℚ), (1 : ℚ)), ((1 : ℚ), (0 : ℚ)),
            TextureHandle.New TextureType.WEAPON 0⟩
          4 4 1 5 ⟨((0 : ℚ), (1 : ℚ)), TextureHandle.New TextureType.SPRITE
            2⟩).spriteRenderHeight >
        [5, 5, 5, 5].getD (2 : ℤ).toNat 0) := by
  have hr : ComputeSpriteRenderData
      ⟨((0 : ℚ), (0 : ℚ)), ((0 : ℚ), (1 : ℚ)), ((1 : ℚ), (0 : ℚ)),
        TextureHandle.New TextureType.WEAPON 0⟩
      4 4 1 5 ⟨((0 : ℚ), (1 : ℚ)), TextureHandle.New TextureType.SPRITE 2⟩ =
      ⟨((0 : ℚ), (1 : ℚ)), 1, 0, 2, 5, ⟨0, 0, 5, 5⟩,
        TextureHandle.New TextureType.SPRITE 2⟩ := by
    simp only [ComputeSpriteRenderData, Prod.mk_sub_mk, Dot]
    norm_num [f64AsI32, ratTrunc, i32AsU32, i32Min, i32Max, Rect.new,
      clampPosition, clampSize, rectMaxIntValue, rectMinIntValue,
      show Int.tdiv 5 2 = 2 by decide, show Int.tdiv 4 2 = 2 by decide]
  rw [hr]
  constructor
  · rw [DrawSpriteColumns]
    exact (spriteColumnsGo_mem (by rw [rectMaxIntValue]; omega) [5, 5, 5, 5]
      _ _ _ 2).mpr (by refine ⟨by decide, by decide, by decide, by decide,
        by decide⟩)
  · decide

/-- Claim C3 amended: during per-sprite rasterization, for every render
record and every screen column `x` in `[0, width)` inside its screen
rectangle, the strip is drawn at `x` if and only if the wall-height buffer
entry at `x` does not exceed the sprite's render height (`wall ≤ sprite`,
the ≤ comparison of engine.rs line 224) — at equality the strip is drawn, so
"exceeds" must be weakened to "is at least".  This comparison is the sole
depth test of the sprite pass. -/
theorem C3_occlusion_test_amended (W : ℤ) (heights : List ℤ)
    (s : SpriteRenderData) (x : ℤ) (hW : W ≤ rectMaxIntValue) (h0 : 0 ≤ x)
    (hxW : x < W) (hrx : s.spriteScreenRect.x ≤ x)
    (hrw : x < s.spriteScreenRect.x + s.spriteScreenRect.w) :
    x ∈ drawnColumns (DrawSpriteColumns W heights s) ↔
      heights.getD x.toNat 0 ≤ s.spriteRenderHeight := by
  rw [DrawSpriteColumns, spriteColumnsGo_mem hW heights s]
  constructor
  · rintro ⟨_, _, _, _, a5⟩
    exact a5
  · intro a5
    have hle := Int.self_le_toNat s.spriteScreenRect.w
    exact ⟨hrx, by omega, h0, hxW, a5⟩

/-- Witness for C3 amended: column 2 of the concrete record of
`C3_counterexample`, whose wall-height entry equals the render height, is
drawn. -/
theorem C3_occlusion_test_amended_witness :
    ((4 : ℤ) ≤ rectMaxIntValue ∧ (0 : ℤ) ≤ 2 ∧ (2 : ℤ) < 4 ∧
      (⟨((0 : ℚ), (1 : ℚ)), 1, 0, 2, 5, ⟨0, 0, 5, 5⟩,
        TextureHandle.New TextureType.SPRITE 2⟩ :
          SpriteRenderData).spriteScreenRect.x ≤ 2 ∧
      (2 : ℤ) < (⟨((0 : ℚ), (1 : ℚ)), 1, 0, 2, 5, ⟨0, 0, 5, 5⟩,
        TextureHandle.New TextureType.SPRITE 2⟩ :
          SpriteRenderData).spriteScreenRect.x +
        (⟨((0 : ℚ), (1 : ℚ)), 1, 0, 2, 5, ⟨0, 0, 5, 5⟩,
          TextureHandle.New TextureType.SPRITE 2⟩ :
            SpriteRenderData).spriteScreenRect.w) ∧
    ((2 : ℤ) ∈ drawnColumns
        (DrawSpriteColumns 4 [5, 5, 5, 5]
          ⟨((0 : ℚ), (1 : ℚ)), 1, 0, 2, 5, ⟨0, 0, 5, 5⟩,
            TextureHandle.New TextureType.SPRITE 2⟩) ↔
      [5, 5, 5, 5].getD (2 : ℤ).toNat 0 ≤
        (⟨((0 : ℚ), (1 : ℚ)), 1, 0, 2, 5, ⟨0, 0, 5, 5⟩,
          TextureHandle.New TextureType.SPRITE 2⟩ :
            SpriteRenderData).spriteRenderHeight) :=
  ⟨⟨by decide, by decide, by decide, by decide, by decide⟩,
    C3_occlusion_test_amended 4 [5, 5, 5, 5]
      ⟨((0 : ℚ), (1 : ℚ)), 1, 0, 2, 5, ⟨0, 0, 5, 5⟩,
        TextureHandle.New TextureType.SPRITE 2⟩ 2 (by decide) (by decide)
      (by decide) (by decide) (by decide)⟩

/-! ### Claim C1 — sprites behind the player -/

/-- Counterexample to claim C1 as stated: a sprite whose depth (dot product
of the player-to-sprite vector with the forward axis) is negative is not
always excluded from rasterization.  With render-height constant 10 and
depth −20, the render height truncates to 0, the sdl2 rectangle clamps the
zero width up to 1, and the single covered column is drawn wherever the
wall-height buffer holds 0 — so `DrawSpritesFromBuffer` draws a pixel column
for a sprite of non-positive depth. -/
theorem C1_counterexample :
    Dot (((⟨((0 : ℚ), (-20 : ℚ)), TextureHandle.New TextureType.SPRITE 1⟩ :
          Sprite).location) -
        ((⟨((0 : ℚ), (0 : ℚ)), ((0 : ℚ), (1 : ℚ)), ((1 : ℚ), (0 : ℚ)),
          TextureHandle.New TextureType.WEAPON 0⟩ :
            PlayerView).location))
        ((⟨((0 : ℚ), (0 : ℚ)), ((0 : ℚ), (1 : ℚ)), ((1 : ℚ), (0 : ℚ)),
          TextureHandle.New TextureType.WEAPON 0⟩ :
            PlayerView).viewDir) ≤ 0 ∧
    drawnColumns
        ((DrawSpritesFromBuffer
          ⟨((0 : ℚ), (0 : ℚ)), ((0 : ℚ), (1 : ℚ)), ((1 : ℚ), (0 : ℚ)),
            TextureHandle.New TextureType.WEAPON 0⟩
          4 4 1 10 [0, 0, 0, 0]
          [⟨((0 : ℚ), (-20 : ℚ)), TextureHandle.New TextureType.SPRITE
            1⟩]).2) ≠ [] := by
  have hr : ComputeSpriteRenderData
      ⟨((0 : ℚ), (0 : ℚ)), ((0 : ℚ), (1 : ℚ)), ((1 : ℚ), (0 : ℚ)),
        TextureHandle.New TextureType.WEAPON 0⟩
      4 4 1 10 ⟨((0 : ℚ), (-20 : ℚ)), TextureHandle.New TextureType.SPRITE
        1⟩ =
      ⟨((0 : ℚ), (-20 : ℚ)), -20, 0, 2, 0, ⟨2, 2, 1, 1⟩,
        TextureHandle.New TextureType.SPRITE 1⟩ := by
    simp only [ComputeSpriteRenderData, Prod.mk_sub_mk, Dot]
    norm_num [f64AsI32, ratTrunc, i32AsU32, i32Min, i32Max, Rect.new,
      clampPosition, clampSize, rectMaxIntValue, rectMinIntValue,
      show Int.tdiv 0 2 = 0 by decide, show Int.tdiv 4 2 = 2 by decide]
  constructor
  · simp only [Dot, Prod.mk_sub_mk]
    norm_num
  · have hms : ([ComputeSpriteRenderData
        ⟨((0 : ℚ), (0 : ℚ)), ((0 : ℚ), (1 : ℚ)), ((1 : ℚ), (0 : ℚ)),
          TextureHandle.New TextureType.WEAPON 0⟩
        4 4 1 10 ⟨((0 : ℚ), (-20 : ℚ)), TextureHandle.New TextureType.SPRITE
          1⟩].mergeSort spriteLe) =
        [ComputeSpriteRenderData
          ⟨((0 : ℚ), (0 : ℚ)), ((0 : ℚ), (1 : ℚ)), ((1 : ℚ), (0 : ℚ)),
            TextureHandle.New TextureType.WEAPON 0⟩
          4 4 1 10 ⟨((0 : ℚ), (-20 : ℚ)), TextureHandle.New
            TextureType.SPRITE 1⟩] := by
      simp
    rw [DrawSpritesFromBuffer]
    simp only [List.map_cons, List.map_nil, hms, List.foldl_cons,
      List.foldl_nil, List.nil_append]
    rw [hr]
    intro hcontra
    have hmem : (2 : ℤ) ∈ drawnColumns
        (DrawSpriteColumns 4 [0, 0, 0, 0]
          ⟨((0 : ℚ), (-20 : ℚ)), -20, 0, 2, 0, ⟨2, 2, 1, 1⟩,
            TextureHandle.New TextureType.SPRITE 1⟩) := by
      rw [DrawSpriteColumns]
      exact (spriteColumnsGo_mem (by rw [rectMaxIntValue]; omega)
        [0, 0, 0, 0] _ _ _ 2).mpr
        ⟨by decide, by decide, by decide, by decide, by decide⟩
    simp only [Nat.cast_ofNat] at hcontra
    rw [hcontra] at hmem
    exact absurd hmem (by simp [drawnColumns])

/-- Claim C1 amended: a sprite whose depth is negative and whose computed
render height is negative (which holds whenever the magnitude of the depth
is at most the render-height constant, i.e. for every sprite a real scene
can place behind the player) is excluded from rasterization by the
wall-occlusion comparison: no pixel column is drawn for it — by
`DrawSpriteColumns` on its record, and by `DrawSpritesFromBuffer` on a
buffer holding it — and the frame is not aborted.  The exclusion claimed for
all non-positive depths fails at depth 0 (a division by zero in `f64`) and
for render heights that truncate to 0 (see the counterexample), so the claim
is weakened to negative computed render height; nonnegative wall-height
entries are exactly what the wall pass produces. -/
theorem C1_behind_sprite_excluded_amended (player : PlayerView)
    (windowWidth windowHeight : Nat) (projPlaneDist : ℚ)
    (renderHeightProprConst : ℚ) (heights : List ℤ) (sprite : Sprite)
    (hd : Dot (sprite.location - player.location) player.viewDir < 0)
    (hh : (ComputeSpriteRenderData player windowWidth windowHeight
        projPlaneDist renderHeightProprConst sprite).spriteRenderHeight < 0)
    (hnn : ∀ v ∈ heights, 0 ≤ v) :
    DrawSpriteColumns (windowWidth : ℤ) heights
        (ComputeSpriteRenderData player windowWidth windowHeight
          projPlaneDist renderHeightProprConst sprite) = [] ∧
    (DrawSpritesFromBuffer player windowWidth windowHeight projPlaneDist
        renderHeightProprConst heights [sprite]).2 = [] := by
  have h1 : DrawSpriteColumns (windowWidth : ℤ) heights
      (ComputeSpriteRenderData player windowWidth windowHeight projPlaneDist
        renderHeightProprConst sprite) = [] := by
    rw [DrawSpriteColumns]
    exact spriteColumnsGo_nil hh hnn _ _
  refine ⟨h1, ?_⟩
  have hms : ([ComputeSpriteRenderData player windowWidth windowHeight
      projPlaneDist renderHeightProprConst sprite].mergeSort spriteLe) =
      [ComputeSpriteRenderData player windowWidth windowHeight projPlaneDist
        renderHeightProprConst sprite] := by
    simp
  rw [DrawSpritesFromBuffer]
  simp only [List.map_cons, List.map_nil, hms, List.foldl_cons,
    List.foldl_nil, List.nil_append]
  exact h1

/-- Witness for C1 amended: a sprite five units directly behind the player
(depth −5, render height −2 with constant 10) draws nothing. -/
theorem C1_behind_sprite_excluded_amended_witness :
    Dot (((⟨((0 : ℚ), (-5 : ℚ)), TextureHandle.New TextureType.SPRITE 1⟩ :
          Sprite).location) -
        ((⟨((0 : ℚ), (0 : ℚ)), ((0 : ℚ), (1 : ℚ)), ((1 : ℚ), (0 : ℚ)),
          TextureHandle.New TextureType.WEAPON 0⟩ :
            PlayerView).location))
        ((⟨((0 : ℚ), (0 : ℚ)), ((0 : ℚ), (1 : ℚ)), ((1 : ℚ), (0 : ℚ)),
          TextureHandle.New TextureType.WEAPON 0⟩ :
            PlayerView).viewDir) < 0 ∧
    (DrawSpritesFromBuffer
        ⟨((0 : ℚ), (0 : ℚ)), ((0 : ℚ), (1 : ℚ)), ((1 : ℚ), (0 : ℚ)),
          TextureHandle.New TextureType.WEAPON 0⟩
        4 4 1 10 [3, 3, 3, 3]
        [⟨((0 : ℚ), (-5 : ℚ)), TextureHandle.New TextureType.SPRITE
          1⟩]).2 = [] := by
  have hd : Dot ((((0 : ℚ), (-5 : ℚ)) : Vec2) - (((0 : ℚ), (0 : ℚ)) : Vec2))
      (((0 : ℚ), (1 : ℚ)) : Vec2) < 0 := by
    simp only [Dot, Prod.mk_sub_mk]
    norm_num
  refine ⟨hd, ?_⟩
  exact
    (C1_behind_sprite_excluded_amended
      ⟨((0 : ℚ), (0 : ℚ)), ((0 : ℚ), (1 : ℚ)), ((1 : ℚ), (0 : ℚ)),
        TextureHandle.New TextureType.WEAPON 0⟩
      4 4 1 10 [3, 3, 3, 3]
      ⟨((0 : ℚ), (-5 : ℚ)), TextureHandle.New TextureType.SPRITE 1⟩ hd
      (by
        simp only [ComputeSpriteRenderData, Prod.mk_sub_mk, Dot]
        norm_num [f64AsI32, ratTrunc, i32Min, i32Max])
      (by decide)).2

/-! ### Claim C9 — game loop ordering -/

/-- Claim C9: in every iteration of the game loop, the update phase runs
first, then the quit predicate is evaluated exactly once, and the render
phase runs only if the quit predicate is false.  The trace of a fuel-bounded
run is `k` whole iterations of update-then-render followed, when the loop
terminated, by one final update after which the quit predicate held — the
loop exits solely via that predicate. -/
theorem C9_game_loop_ordering {S : Type} (update : S → S) (quitOf : S → Bool)
    (render : S → S) (n : Nat) (s : S) :
    (∃ k, k ≤ n ∧
        (GameLoop update quitOf render n s).2 =
          (List.replicate k [LoopEvent.updateEv, LoopEvent.renderEv]).flatten ++
            [LoopEvent.updateEv] ∧
        quitOf (GameLoop update quitOf render n s).1 = true) ∨
      (GameLoop update quitOf render n s).2 =
        (List.replicate n [LoopEvent.updateEv, LoopEvent.renderEv]).flatten := by
  induction n generalizing s with
  | zero => right; simp [GameLoop]
  | succ n ih =>
    by_cases hq : quitOf (update s) = true
    · left
      refine ⟨0, by omega, ?_, ?_⟩ <;> simp [GameLoop, hq]
    · rcases ih (render (update s)) with ⟨k, hk, htr, hq'⟩ | htr
      · left
        refine ⟨k + 1, by omega, ?_, ?_⟩
        · simp [GameLoop, hq, htr, List.replicate_succ]
        · simpa [GameLoop, hq] using hq'
      · right
        simp [GameLoop, hq, htr, List.replicate_succ]

/-! ### Claim C6 — sprite compositing order -/

/-- Claim C6: before any sprite strip is composited, the frame's sprite
render records are sorted ascending by render height (far-to-near): the
record list `DrawSpritesFromBuffer` composites is a permutation of the
projected records that is pairwise ordered by render height, and the draw
events are exactly the per-record strips concatenated in that sorted order —
so of two overlapping records at different render heights, the larger
(nearer) one's strips are issued after the smaller one's, regardless of
insertion order into the sprite buffer. -/
theorem C6_sprites_sorted_before_compositing (player : PlayerView)
    (windowWidth windowHeight : Nat) (projPlaneDist : ℚ)
    (renderHeightProprConst : ℚ) (wallRenderHeights : List ℤ)
    (spritesBuffer : List Sprite) :
    ((DrawSpritesFromBuffer player windowWidth windowHeight projPlaneDist
        renderHeightProprConst wallRenderHeights spritesBuffer).1).Perm
      (spritesBuffer.map
        (ComputeSpriteRenderData player windowWidth windowHeight projPlaneDist
          renderHeightProprConst)) ∧
    ((DrawSpritesFromBuffer player windowWidth windowHeight projPlaneDist
        renderHeightProprConst wallRenderHeights spritesBuffer).1).Pairwise
      (fun a b => a.spriteRenderHeight ≤ b.spriteRenderHeight) ∧
    (DrawSpritesFromBuffer player windowWidth windowHeight projPlaneDist
        renderHeightProprConst wallRenderHeights spritesBuffer).2 =
      (((DrawSpritesFromBuffer player windowWidth windowHeight projPlaneDist
          renderHeightProprConst wallRenderHeights spritesBuffer).1).map
        (DrawSpriteColumns (windowWidth : ℤ) wallRenderHeights)).flatten := by
  refine ⟨?_, ?_, ?_⟩
  · exact List.mergeSort_perm _ spriteLe
  · have h :=
      List.sorted_mergeSort spriteLe_trans spriteLe_total
        (spritesBuffer.map
          (ComputeSpriteRenderData player windowWidth windowHeight
            projPlaneDist renderHeightProprConst))
    refine h.imp ?_
    intro a b hab
    simpa [spriteLe] using hab
  · simpa [DrawSpritesFromBuffer] using
      foldl_append_eq_join
        (DrawSpriteColumns (windowWidth : ℤ) wallRenderHeights)
        ((spritesBuffer.map
          (ComputeSpriteRenderData player windowWidth windowHeight
            projPlaneDist renderHeightProprConst)).mergeSort spriteLe) []

/-! ### Claim C5 — door-jamb texture override -/

/-- Claim C5: when a column's traversal terminates on a wall tile, the
emitted slice's texture handle is overridden with the lighting-dependent
choice between the two fixed door-jamb handles (`WALL 101` lit, `WALL 102`
unlit), selected by the lighting predicate evaluated on the cursor's state at
the wall hit, exactly when the cell just exited was a door tile; otherwise
the wall's own texture handle is kept. -/
theorem C5_door_jamb_override (step : RayCursor → RayCursor)
    (lightPred : RayCursor → Bool) (m : Map) (fuel : Nat)
    (rayCursor : RayCursor) (prevTileCoord : ℤ × ℤ) (st : SpriteState)
    (wall : WallTile) (hin : m.WithinMap rayCursor.hitTile = true)
    (hin' : m.WithinMap (step rayCursor).hitTile = true)
    (hwall : m.GetTile (step rayCursor).hitTile = Tile.WALL wall) :
    ∃ s : WallSlice,
      RenderColumnLoop step lightPred m (fuel + 1) rayCursor prevTileCoord
          st = (ColumnEnd.pushed s, st) ∧
      ((∃ d, m.GetTile prevTileCoord = Tile.DOOR d) →
        s.textureHandle =
          (if lightPred (step rayCursor) then
            TextureHandle.New TextureType.WALL 101
          else TextureHandle.New TextureType.WALL 102) ∧
        (s.textureHandle = TextureHandle.New TextureType.WALL 101 ∨
          s.textureHandle = TextureHandle.New TextureType.WALL 102)) ∧
      ((∀ d, m.GetTile prevTileCoord ≠ Tile.DOOR d) →
        s = wall.GetWallSlice (step rayCursor) ∧
        s.textureHandle = wall.textureHandle) := by
  cases hprev : m.GetTile prevTileCoord with
  | DOOR d =>
    refine ⟨{ wall.GetWallSlice (step rayCursor) with
        textureHandle :=
          LightTexture lightPred (step rayCursor)
            (TextureHandle.New TextureType.WALL 101)
            (TextureHandle.New TextureType.WALL 102) }, ?_, ?_, ?_⟩
    · simp [RenderColumnLoop, hin, hin', hwall, hprev]
    · intro _
      constructor
      · simp [LightTexture]
      · by_cases hl : lightPred (step rayCursor) = true <;>
          simp [LightTexture, hl]
    · intro hnot
      exact absurd rfl (hnot d)
  | WALL w =>
    refine ⟨wall.GetWallSlice (step rayCursor), ?_, ?_, ?_⟩
    · simp [RenderColumnLoop, hin, hin', hwall, hprev]
    · rintro ⟨d, hd⟩; simp at hd
    · intro _; exact ⟨rfl, rfl⟩
  | OBJECT o =>
    refine ⟨wall.GetWallSlice (step rayCursor), ?_, ?_, ?_⟩
    · simp [RenderColumnLoop, hin, hin', hwall, hprev]
    · rintro ⟨d, hd⟩; simp at hd
    · intro _; exact ⟨rfl, rfl⟩
  | EMPTY e =>
    refine ⟨wall.GetWallSlice (step rayCursor), ?_, ?_, ?_⟩
    · simp [RenderColumnLoop, hin, hin', hwall, hprev]
    · rintro ⟨d, hd⟩; simp at hd
    · intro _; exact ⟨rfl, rfl⟩
  | NONE =>
    refine ⟨wall.GetWallSlice (step rayCursor), ?_, ?_, ?_⟩
    · simp [RenderColumnLoop, hin, hin', hwall, hprev]
    · rintro ⟨d, hd⟩; simp at hd
    · intro _; exact ⟨rfl, rfl⟩

/-- Witness for C5: a concrete 2×1 map whose cell (0,0) is a door and whose
cell (1,0) is a wall; the column that exits the door into the wall emits a
slice carrying the lit door-jamb handle `WALL 101` under an
always-lit predicate. -/
theorem C5_door_jamb_override_witness :
    (⟨2, 1, fun c => if c = ((1 : ℤ), (0 : ℤ)) then
        Tile.WALL ⟨TextureHandle.New TextureType.WALL 7⟩
      else Tile.DOOR ⟨TextureHandle.New TextureType.WALL 8, 0⟩⟩ :
        Map).WithinMap ((0 : ℤ), (0 : ℤ)) = true ∧
    ∃ s : WallSlice,
      RenderColumnLoop
          (fun c => ⟨(c.hitTile.1 + 1, c.hitTile.2), c.dist + 1,
            c.hitFraction⟩)
          (fun _ => true)
          ⟨2, 1, fun c => if c = ((1 : ℤ), (0 : ℤ)) then
            Tile.WALL ⟨TextureHandle.New TextureType.WALL 7⟩
          else Tile.DOOR ⟨TextureHandle.New TextureType.WALL 8, 0⟩⟩
          (4 + 1) ⟨((0 : ℤ), (0 : ℤ)), 0, 0⟩ ((0 : ℤ), (0 : ℤ))
          ⟨[], [[false]]⟩ = (ColumnEnd.pushed s, ⟨[], [[false]]⟩) ∧
      ((∃ d, (⟨2, 1, fun c => if c = ((1 : ℤ), (0 : ℤ)) then
          Tile.WALL ⟨TextureHandle.New TextureType.WALL 7⟩
        else Tile.DOOR ⟨TextureHandle.New TextureType.WALL 8, 0⟩⟩ :
          Map).GetTile ((0 : ℤ), (0 : ℤ)) = Tile.DOOR d) →
        s.textureHandle =
          (if (fun (_ : RayCursor) => true)
              ((fun (c : RayCursor) => (⟨(c.hitTile.1 + 1, c.hitTile.2),
                c.dist + 1, c.hitFraction⟩ : RayCursor))
                ⟨((0 : ℤ), (0 : ℤ)), 0, 0⟩) then
            TextureHandle.New TextureType.WALL 101
          else TextureHandle.New TextureType.WALL 102) ∧
        (s.textureHandle = TextureHandle.New TextureType.WALL 101 ∨
          s.textureHandle = TextureHandle.New TextureType.WALL 102)) := by
  refine ⟨by decide, ?_⟩
  obtain ⟨s, h1, h2, _⟩ :=
    C5_door_jamb_override
      (fun c => ⟨(c.hitTile.1 + 1, c.hitTile.2), c.dist + 1, c.hitFraction⟩)
      (fun _ => true)
      ⟨2, 1, fun c => if c = ((1 : ℤ), (0 : ℤ)) then
        Tile.WALL ⟨TextureHandle.New TextureType.WALL 7⟩
      else Tile.DOOR ⟨TextureHandle.New TextureType.WALL 8, 0⟩⟩
      4 ⟨((0 : ℤ), (0 : ℤ)), 0, 0⟩ ((0 : ℤ), (0 : ℤ)) ⟨[], [[false]]⟩
      ⟨TextureHandle.New TextureType.WALL 7⟩
      (by decide) (by decide) (by decide)
  exact ⟨s, h1, h2⟩

/-! ### Claim C2 — out-of-bounds traversal -/

/-- Claim C2 (code evaluated at the failing input): on a 2×2 map of empty
tiles, the column whose ray marches in the +x direction from cell (0,0)
steps into the out-of-bounds cell (2,0) and the loop then reads that cell's
tile — the loop does not take the clean no-slice exit the spec requires, for
the bounds check at the top of the `while` only ever runs after the newly
entered cell has already been classified. -/
theorem C2_oob_traversal_reads_out_of_bounds_cell :
    (RenderColumnLoop
        (fun c => ⟨(c.hitTile.1 + 1, c.hitTile.2), c.dist + 1,
          c.hitFraction⟩)
        (fun _ => false) ⟨2, 2, fun _ => Tile.EMPTY ⟨[]⟩⟩ 3
        ⟨((0 : ℤ), (0 : ℤ)), 0, 0⟩ ((0 : ℤ), (0 : ℤ))
        ⟨[], [[false, false], [false, false]]⟩).1 =
      ColumnEnd.oobRead ((2 : ℤ), (0 : ℤ)) := by
  decide

theorem trace_blocks (cf w s : List DrawEvent) (wp pr : DrawEvent)
    (hcf : cf.length = 2) :
    (∀ i, i < w.length →
      (DrawEvent.clear :: (cf ++ w ++ s ++ [wp, pr]))[3 + i]? = w[i]?) ∧
    (∀ j, j < s.length →
      (DrawEvent.clear :: (cf ++ w ++ s ++ [wp, pr]))[3 + w.length + j]? =
        s[j]?) ∧
    (DrawEvent.clear ::
        (cf ++ w ++ s ++ [wp, pr]))[3 + w.length + s.length]? = some wp ∧
    (DrawEvent.clear ::
        (cf ++ w ++ s ++ [wp, pr]))[3 + w.length + s.length + 1]? =
      some pr ∧
    (DrawEvent.clear :: (cf ++ w ++ s ++ [wp, pr])).length =
      3 + w.length + s.length + 2 := by
  have hlcw : (cf ++ w).length = 2 + w.length := by
    simp only [List.length_append, hcf]
  have hlcws : (cf ++ w ++ s).length = 2 + w.length + s.length := by
    simp only [List.length_append, hcf]
  refine ⟨?_, ?_, ?_, ?_, ?_⟩
  · intro i hi
    rw [show 3 + i = (2 + i) + 1 from by omega]
    rw [List.getElem?_cons_succ]
    rw [List.getElem?_append_left (show 2 + i < (cf ++ w ++ s).length from by rw [hlcws]; omega)]
    rw [List.getElem?_append_left (show 2 + i < (cf ++ w).length from by rw [hlcw]; omega)]
    rw [List.getElem?_append_right (show cf.length ≤ 2 + i from by rw [hcf]; omega)]
    rw [hcf]
    rw [show 2 + i - 2 = i from by omega]
  · intro j hj
    rw [show 3 + w.length + j = (2 + w.length + j) + 1 from by omega]
    rw [List.getElem?_cons_succ]
    rw [List.getElem?_append_left (show 2 + w.length + j < (cf ++ w ++ s).length from by rw [hlcws]; omega)]
    rw [List.getElem?_append_right (show (cf ++ w).length ≤ 2 + w.length + j from by rw [hlcw]; omega)]
    rw [hlcw]
    rw [show 2 + w.length + j - (2 + w.length) = j from by omega]
  · rw [show 3 + w.length + s.length = (2 + w.length + s.length) + 1 from by omega]
    rw [List.getElem?_cons_succ]
    rw [List.getElem?_append_right (show (cf ++ w ++ s).length ≤ 2 + w.length + s.length from by rw [hlcws])]
    rw [hlcws]
    rw [show 2 + w.length + s.length - (2 + w.length + s.length) = 0 from by omega]
    rfl
  · rw [show 3 + w.length + s.length + 1 = (2 + w.length + s.length + 1) + 1 from by omega]
    rw [List.getElem?_cons_succ]
    rw [List.getElem?_append_right (show (cf ++ w ++ s).length ≤ 2 + w.length + s.length + 1 from by rw [hlcws]; omega)]
    rw [hlcws]
    rw [show 2 + w.length + s.length + 1 - (2 + w.length + s.length) = 1 from by omega]
    rfl
  · simp only [List.length_cons, List.length_append, List.length_nil, hcf]
    omega

/-! ### Claim C7 — frame phase ordering -/

/-- Claim C7: within every frame, the wall pass runs to completion — the
sprite pass consumes `(frameWallPass st slices).1`, the wall-height buffer as
fully written by the completed wall pass — strictly before sprite
compositing, and in the frame's canvas trace every wall-block event sits at
an index before every sprite-block event, the weapon overlay is drawn
unconditionally right after all of them at its fixed position and size (its
event depends only on the weapon configuration and the player's weapon
texture, never on any depth data), and the present call ends the frame. -/
theorem C7_frame_phase_ordering (st : EngineState) (fuel : Nat)
    (slices : List WallSlice) (sst : SpriteState)
    (h : RenderIntoBuffers st.stepCursor st.lightPred st.map fuel
        st.initCursor st.windowWidth st.spriteTileHitMap =
      Except.ok (slices, sst)) :
    RenderFrame st fuel =
      Except.ok
        ({ st with
            wallRenderHeights := (frameWallPass st slices).1
            spriteTileHitMap := sst.spriteTileHitMap },
          frameTrace st slices sst) ∧
    (∀ i, i < (frameWallPass st slices).2.length →
      (frameTrace st slices sst)[3 + i]? = (frameWallPass st slices).2[i]?) ∧
    (∀ j, j < (frameSpriteEvents st slices sst).length →
      (frameTrace st slices sst)[3 + (frameWallPass st slices).2.length +
          j]? =
        (frameSpriteEvents st slices sst)[j]?) ∧
    (frameTrace st slices sst)[3 + (frameWallPass st slices).2.length +
        (frameSpriteEvents st slices sst).length]? =
      some (DrawWeapon st.weapon st.player) ∧
    (frameTrace st slices sst)[3 + (frameWallPass st slices).2.length +
        (frameSpriteEvents st slices sst).length + 1]? =
      some DrawEvent.present ∧
    (frameTrace st slices sst).length =
      3 + (frameWallPass st slices).2.length +
        (frameSpriteEvents st slices sst).length + 2 := by
  constructor
  · rw [RenderFrame, h]
    rfl
  · have hcf : (DrawCeilingAndFloor st.windowWidth st.windowHeight).length =
        2 := rfl
    have hb :=
      trace_blocks (DrawCeilingAndFloor st.windowWidth st.windowHeight)
        (frameWallPass st slices).2 (frameSpriteEvents st slices sst)
        (DrawWeapon st.weapon st.player) DrawEvent.present hcf
    exact hb

/-- Witness for C7: a one-column window looking from an empty cell into a
wall cell; the frame succeeds and its trace decomposes into the staged
blocks. -/
theorem C7_frame_phase_ordering_witness :
    RenderIntoBuffers
        (⟨⟨((0 : ℚ), (0 : ℚ)), ((0 : ℚ), (1 : ℚ)), ((1 : ℚ), (0 : ℚ)),
            TextureHandle.New TextureType.WEAPON 0⟩,
          ⟨2, 1, fun c => if c = ((1 : ℤ), (0 : ℤ)) then
            Tile.WALL ⟨TextureHandle.New TextureType.WALL 7⟩
          else Tile.EMPTY ⟨[]⟩⟩,
          1, 2, 1, 10, fun _ => ((0 : ℚ), (1 : ℚ)),
          (fun _ => ⟨((0 : ℤ), (0 : ℤ)), 1, 0⟩),
          (fun c => ⟨(c.hitTile.1 + 1, c.hitTile.2), c.dist, c.hitFraction⟩),
          (fun _ => false), [0], [[false]],
          ⟨((0 : ℤ), (1 : ℤ)), 1⟩⟩ : EngineState).stepCursor
        (⟨⟨((0 : ℚ), (0 : ℚ)), ((0 : ℚ), (1 : ℚ)), ((1 : ℚ), (0 : ℚ)),
            TextureHandle.New TextureType.WEAPON 0⟩,
          ⟨2, 1, fun c => if c = ((1 : ℤ), (0 : ℤ)) then
            Tile.WALL ⟨TextureHandle.New TextureType.WALL 7⟩
          else Tile.EMPTY ⟨[]⟩⟩,
          1, 2, 1, 10, fun _ => ((0 : ℚ), (1 : ℚ)),
          (fun _ => ⟨((0 : ℤ), (0 : ℤ)), 1, 0⟩),
          (fun c => ⟨(c.hitTile.1 + 1, c.hitTile.2), c.dist, c.hitFraction⟩),
          (fun _ => false), [0], [[false]],
          ⟨((0 : ℤ), (1 : ℤ)), 1⟩⟩ : EngineState).lightPred
        (⟨⟨((0 : ℚ), (0 : ℚ)), ((0 : ℚ), (1 : ℚ)), ((1 : ℚ), (0 : ℚ)),
            TextureHandle.New TextureType.WEAPON 0⟩,
          ⟨2, 1, fun c => if c = ((1 : ℤ), (0 : ℤ)) then
            Tile.WALL ⟨TextureHandle.New TextureType.WALL 7⟩
          else Tile.EMPTY ⟨[]⟩⟩,
          1, 2, 1, 10, fun _ => ((0 : ℚ), (1 : ℚ)),
          (fun _ => ⟨((0 : ℤ), (0 : ℤ)), 1, 0⟩),
          (fun c => ⟨(c.hitTile.1 + 1, c.hitTile.2), c.dist, c.hitFraction⟩),
          (fun _ => false), [0], [[false]],
          ⟨((0 : ℤ), (1 : ℤ)), 1⟩⟩ : EngineState).map 2
        (⟨⟨((0 : ℚ), (0 : ℚ)), ((0 : ℚ), (1 : ℚ)), ((1 : ℚ), (0 : ℚ)),
            TextureHandle.New TextureType.WEAPON 0⟩,
          ⟨2, 1, fun c => if c = ((1 : ℤ), (0 : ℤ)) then
            Tile.WALL ⟨TextureHandle.New TextureType.WALL 7⟩
          else Tile.EMPTY ⟨[]⟩⟩,
          1, 2, 1, 10, fun _ => ((0 : ℚ), (1 : ℚ)),
          (fun _ => ⟨((0 : ℤ), (0 : ℤ)), 1, 0⟩),
          (fun c => ⟨(c.hitTile.1 + 1, c.hitTile.2), c.dist, c.hitFraction⟩),
          (fun _ => false), [0], [[false]],
          ⟨((0 : ℤ), (1 : ℤ)), 1⟩⟩ : EngineState).initCursor
        1 [[false]] =
      Except.ok
        ([⟨1, TextureHandle.New TextureType.WALL 7,
          Rect.new (ratTrunc ((0 : ℚ) * (TEXTURE_PITCH : ℚ))) 0 1
            TEXTURE_PITCH⟩],
          ⟨[], [[false]]⟩) ∧
    RenderFrame
        (⟨⟨((0 : ℚ), (0 : ℚ)), ((0 : ℚ), (1 : ℚ)), ((1 : ℚ), (0 : ℚ)),
            TextureHandle.New TextureType.WEAPON 0⟩,
          ⟨2, 1, fun c => if c = ((1 : ℤ), (0 : ℤ)) then
            Tile.WALL ⟨TextureHandle.New TextureType.WALL 7⟩
          else Tile.EMPTY ⟨[]⟩⟩,
          1, 2, 1, 10, fun _ => ((0 : ℚ), (1 : ℚ)),
          (fun _ => ⟨((0 : ℤ), (0 : ℤ)), 1, 0⟩),
          (fun c => ⟨(c.hitTile.1 + 1, c.hitTile.2), c.dist, c.hitFraction⟩),
          (fun _ => false), [0], [[false]],
          ⟨((0 : ℤ), (1 : ℤ)), 1⟩⟩ : EngineState) 2 =
      Except.ok
        ({ (⟨⟨((0 : ℚ), (0 : ℚ)), ((0 : ℚ), (1 : ℚ)), ((1 : ℚ), (0 : ℚ)),
              TextureHandle.New TextureType.WEAPON 0⟩,
            ⟨2, 1, fun c => if c = ((1 : ℤ), (0 : ℤ)) then
              Tile.WALL ⟨TextureHandle.New TextureType.WALL 7⟩
            else Tile.EMPTY ⟨[]⟩⟩,
            1, 2, 1, 10, fun _ => ((0 : ℚ), (1 : ℚ)),
            (fun _ => ⟨((0 : ℤ), (0 : ℤ)), 1, 0⟩),
            (fun c => ⟨(c.hitTile.1 + 1, c.hitTile.2), c.dist,
              c.hitFraction⟩),
            (fun _ => false), [0], [[false]],
            ⟨((0 : ℤ), (1 : ℤ)), 1⟩⟩ : EngineState) with
            wallRenderHeights :=
              (frameWallPass
                (⟨⟨((0 : ℚ), (0 : ℚ)), ((0 : ℚ), (1 : ℚ)),
                    ((1 : ℚ), (0 : ℚ)),
                    TextureHandle.New TextureType.WEAPON 0⟩,
                  ⟨2, 1, fun c => if c = ((1 : ℤ), (0 : ℤ)) then
                    Tile.WALL ⟨TextureHandle.New TextureType.WALL 7⟩
                  else Tile.EMPTY ⟨[]⟩⟩,
                  1, 2, 1, 10, fun _ => ((0 : ℚ), (1 : ℚ)),
                  (fun _ => ⟨((0 : ℤ), (0 : ℤ)), 1, 0⟩),
                  (fun c => ⟨(c.hitTile.1 + 1, c.hitTile.2), c.dist,
                    c.hitFraction⟩),
                  (fun _ => false), [0], [[false]],
                  ⟨((0 : ℤ), (1 : ℤ)), 1⟩⟩ : EngineState)
                [⟨1, TextureHandle.New TextureType.WALL 7,
                  Rect.new (ratTrunc ((0 : ℚ) * (TEXTURE_PITCH : ℚ))) 0 1
                    TEXTURE_PITCH⟩]).1
            spriteTileHitMap := [[false]] },
          frameTrace
            (⟨⟨((0 : ℚ), (0 : ℚ)), ((0 : ℚ), (1 : ℚ)), ((1 : ℚ), (0 : ℚ)),
                TextureHandle.New TextureType.WEAPON 0⟩,
              ⟨2, 1, fun c => if c = ((1 : ℤ), (0 : ℤ)) then
                Tile.WALL ⟨TextureHandle.New TextureType.WALL 7⟩
              else Tile.EMPTY ⟨[]⟩⟩,
              1, 2, 1, 10, fun _ => ((0 : ℚ), (1 : ℚ)),
              (fun _ => ⟨((0 : ℤ), (0 : ℤ)), 1, 0⟩),
              (fun c => ⟨(c.hitTile.1 + 1, c.hitTile.2), c.dist,
                c.hitFraction⟩),
              (fun _ => false), [0], [[false]],
              ⟨((0 : ℤ), (1 : ℤ)), 1⟩⟩ : EngineState)
            [⟨1, TextureHandle.New TextureType.WALL 7,
              Rect.new (ratTrunc ((0 : ℚ) * (TEXTURE_PITCH : ℚ))) 0 1
                TEXTURE_PITCH⟩]
            ⟨[], [[false]]⟩) := by
  have h : RenderIntoBuffers
      (fun c => (⟨(c.hitTile.1 + 1, c.hitTile.2), c.dist, c.hitFraction⟩ :
        RayCursor))
      (fun _ => false)
      ⟨2, 1, fun c => if c = ((1 : ℤ), (0 : ℤ)) then
        Tile.WALL ⟨TextureHandle.New TextureType.WALL 7⟩
      else Tile.EMPTY ⟨[]⟩⟩ 2
      (fun _ => ⟨((0 : ℤ), (0 : ℤ)), 1, 0⟩) 1 [[false]] =
      Except.ok
        ([⟨1, TextureHandle.New TextureType.WALL 7,
          Rect.new (ratTrunc ((0 : ℚ) * (TEXTURE_PITCH : ℚ))) 0 1
            TEXTURE_PITCH⟩],
          ⟨[], [[false]]⟩) := by
    rfl
  exact ⟨h, (C7_frame_phase_ordering _ 2 _ _ h).1⟩

end WolfEngine
